import Mathlib

/-!
Verification development for the zasr streaming ASR server.

This file contains a shallow embedding of the per-connection protocol state
machine and audio pipeline of src/zasr-connection.cc (together with the frame
routing of zasr-server.cc), of the voice-print store of src/voice-print-db.cc,
and of the speaker identification flow of src/speaker-identifier.cc, followed
by theorems about the embedded definitions.

Modelling conventions:
- C++ std::vector of int16_t samples is List Int; float samples are List Rat
  (the conversion s / 32768.0f is exact in binary32 for all int16 values, so
  rationals are an exact model).
- Calls into the external sherpa-onnx models (VAD detection, decoding results,
  endpoint decisions, embedding extraction, manager search) are oracles: each
  processed input carries an environment record holding the answers the
  external library gave during that call.
- Wall-clock tests (the 200 ms partial-update timer) are likewise oracle bits.
- Emitted protocol messages are modelled as an Event trace; the fields that
  the verified claims talk about (name, status code, idx, time, begin, text)
  are carried, message ids and speaker tags are not.
-/

set_option maxHeartbeats 1000000

namespace ZAsr

/-- Connection lifecycle states, from zasr-connection.h. -/
inductive ConnectionState
  | CONNECTED
  | STARTED
  | PROCESSING
  | CLOSING
  | CLOSED
deriving DecidableEq, Repr

namespace ErrorCode

def ERR_INVALID_STATE_FOR_START_TRANSCRIPTION : Nat := 1001

def ERR_UNSUPPORTED_AUDIO_FORMAT : Nat := 1002

def ERR_UNSUPPORTED_SAMPLE_RATE : Nat := 1003

def ERR_ERROR_PROCESSING_START_TRANSCRIPTION : Nat := 1004

def ERR_TRANSCRIPTION_NOT_STARTED : Nat := 1005

def ERR_TRANSCRIPTION_NOT_STARTED_OR_WRONG_STATE : Nat := 1006

def ERR_INVALID_JSON_FORMAT : Nat := 2001

def ERR_ERROR_PROCESSING_MESSAGE : Nat := 2002

def ERR_MISSING_OR_INVALID_HEADER : Nat := 2003

def ERR_MISSING_NAME_IN_HEADER : Nat := 2004

def ERR_UNSUPPORTED_MESSAGE_NAME : Nat := 2005

def ERR_ERROR_PROCESSING_PROTOCOL_MESSAGE : Nat := 2006

def ERR_SERVER_CONFIG_NOT_AVAILABLE : Nat := 2007

end ErrorCode

/-- Outbound protocol events, as built by the Send* methods of ZAsrConnection. -/
inductive Event
  | started (sid : String)
  | sentenceBegin (idx : Nat) (time : Nat)
  | result (idx : Nat) (time : Nat) (text : String)
  | sentenceEnd (idx : Nat) (time : Nat) (begin_time : Nat) (text : String)
  | completed
  | failed (status : Nat)
deriving DecidableEq, Repr

/-- SentenceState from zasr-connection.h. -/
structure SentenceState where
  index : Nat := 0
  begin_time : Nat := 0
  current_time : Nat := 0
  result : String := ""
  active : Bool := false
deriving DecidableEq, Repr

/-- ClientConfig from zasr-connection.h (default max_sentence_silence is 500
there; FromJson overrides every field). -/
structure ClientConfig where
  format : String := "pcm"
  sample_rate : Int := 16000
  enable_inverse_text_normalization : Bool := true
  max_sentence_silence : Int := 500
deriving DecidableEq, Repr

/-- The recognized fields of a Begin payload.  A missing JSON field is
represented by the default that j.value(key, default) supplies in FromJson;
session_id is kept as an Option because HandleStartTranscription reads it
with default empty string. -/
structure BeginPayload where
  fmt : String := "pcm"
  rate : Int := 16000
  itn : Bool := true
  silence : Int := 800
  session_id : Option String := none
deriving DecidableEq, Repr

/-- ClientConfig::FromJson. -/
def ClientConfig.FromJson (p : BeginPayload) : ClientConfig :=
  { format := p.fmt
    sample_rate := p.rate
    enable_inverse_text_normalization := p.itn
    max_sentence_silence := p.silence }

/-- Per-connection state (the fields of ZAsrConnection that the verified
claims depend on).  The recognizer, VAD, stream and punctuation unique_ptr
members are modelled by has_* booleans; the float_buffer_ member is omitted
because the source only ever clears it. -/
structure Conn where
  state : ConnectionState := .CONNECTED
  is_active : Bool := true
  session_id : String := ""
  client_config : ClientConfig := {}
  audio_buffer : List Int := []
  total_samples : Nat := 0
  total_ms : Nat := 0
  vad_window_size : Nat := 0
  vad_offset : Nat := 0
  speech_started : Bool := false
  streamed_offset : Nat := 0
  use_online_recognizer : Bool := false
  has_vad : Bool := false
  has_offline_recognizer : Bool := false
  has_online_recognizer : Bool := false
  has_offline_stream : Bool := false
  has_online_stream : Bool := false
  current_sentence : SentenceState := {}
  sentence_counter : Nat := 0
  current_sentence_audio : List Int := []
deriving DecidableEq, Repr

/-- The freshly constructed connection object. -/
def initConn : Conn := {}

/-- Int16ToFloat: exact model of the int16 -> float conversion. -/
def Int16ToFloat (int16_samples : List Int) : List ℚ :=
  int16_samples.map (fun (s : Int) => (s : ℚ) / 32768)

/-- SamplesToMs: 16 samples per millisecond.  total_samples_ is never
negative in the source, so Nat division is an exact model. -/
def SamplesToMs (samples : Nat) : Nat :=
  samples / 16

/-- Answers the external VAD / offline recognizer / timer gave during one
ProcessOfflineMode call: detect o is IsDetected after feeding the window that
starts at float offset o, popCount is how many completed segments the VAD
FIFO yielded, updateDue is the 200 ms partial-update timer test, and the two
text fields are the recognizer results of the partial and the final decode. -/
structure OfflineEnv where
  detect : Nat → Bool
  popCount : Nat
  updateDue : Bool
  interimText : String
  finalText : String

/-- Answers the online recognizer gave during one ProcessOnlineMode call. -/
structure OnlineEnv where
  isReady : Bool
  readyText : String
  isEndpoint : Bool
  finalText : String

/-- Oracle bundle for one ProcessAudioBuffer entry. -/
structure PipelineEnv where
  offl : OfflineEnv
  onl : OnlineEnv

/-- Environment of one HandleStartTranscription call: the UUID that
generate_uuid would produce, and whether constructing the VAD / recognizer /
models threw or yielded null (all those paths emit Failed 1004). -/
structure BeginEnv where
  uuid : String
  initFails : Bool

/-- Server-wide configuration fixed for the lifetime of the server.
recognizerOnline selects the online-recognizer branch of
HandleStartTranscription; vad_window_size is sample_rate * vad_window_size_ms
/ 1000; punct is the observable behaviour of AddPunctuation as a total
function on the emitted final text (see AddPunctuation below for the precise
fallible model used by the punctuation claims). -/
structure ServerConfig where
  recognizerOnline : Bool
  vad_window_size : Nat
  hasServer : Bool := true
  punct : String → String

/-- The VAD while-loop of ProcessOfflineMode:
while (vad_offset_ + vad_window_size_ <= float_samples.size()) feed one
window and, on the first detection, open a sentence.  The loop is written
with explicit fuel; vadLoop below supplies fuel = len which dominates the
iteration count because every iteration consumes at least one sample.  The
guard 0 < vad_window_size makes the model total: with window size 0 the
source loop would not terminate. -/
def vadLoopAux (env : OfflineEnv) (len : Nat) : Nat → Conn → Conn × List Event
  | 0, c => (c, [])
  | fuel + 1, c =>
    if 0 < c.vad_window_size ∧ c.vad_offset + c.vad_window_size ≤ len then
      let r1 : Conn × List Event :=
        if c.speech_started = false ∧ env.detect c.vad_offset then
          let n := c.sentence_counter + 1
          ({ c with speech_started := true
                    streamed_offset := 0
                    has_offline_stream := true
                    sentence_counter := n
                    current_sentence :=
                      { index := n, begin_time := c.total_ms,
                        current_time := c.total_ms, result := "", active := true } },
           [Event.sentenceBegin n c.total_ms])
        else (c, [])
      let c2 := { r1.1 with vad_offset := r1.1.vad_offset + r1.1.vad_window_size }
      let r2 := vadLoopAux env len fuel c2
      (r2.1, r1.2 ++ r2.2)
    else (c, [])

/-- The VAD window loop with sufficient fuel. -/
def vadLoop (env : OfflineEnv) (len : Nat) (c : Conn) : Conn × List Event :=
  vadLoopAux env len len c

/-- The silence-trimming step of ProcessOfflineMode (the branch guarded by
!speech_started_ that caps the buffers at 10 * vad_window_size_ samples).
Returns the new connection state and the length of the local float_samples
vector after the step. -/
def trimStep (c : Conn) (len : Nat) : Conn × Nat :=
  if c.speech_started = false ∧ 10 * c.vad_window_size < len then
    let new_size := 10 * c.vad_window_size
    let samples_to_remove := len - new_size
    ({ c with
        streamed_offset :=
          if samples_to_remove < c.streamed_offset
          then c.streamed_offset - samples_to_remove else 0
        vad_offset :=
          if samples_to_remove < c.vad_offset
          then c.vad_offset - samples_to_remove else 0
        audio_buffer := c.audio_buffer.drop (c.audio_buffer.length - new_size) },
     new_size)
  else (c, len)

/-- The feeding / 200 ms partial-update step of ProcessOfflineMode (the
branch guarded by speech_started_ && offline_stream_).  len is the length of
the local float_samples vector. -/
def feedStep (env : OfflineEnv) (c : Conn) (len : Nat) : Conn × List Event :=
  if c.speech_started = true ∧ c.has_offline_stream = true then
    if len ≠ 0 then
      let c1 := if c.streamed_offset ≤ len then c else { c with streamed_offset := 0 }
      let new_samples := len - c1.streamed_offset
      let c2 :=
        if 0 < new_samples
        then { c1 with streamed_offset := c1.streamed_offset + new_samples }
        else c1
      if env.updateDue then
        let c3 := { c2 with current_sentence :=
          { c2.current_sentence with result := env.interimText, current_time := c2.total_ms } }
        (c3, [Event.result c3.current_sentence.index c3.total_ms env.interimText])
      else (c2, [])
    else (c, [])
  else (c, [])

/-- The VAD FIFO draining step of ProcessOfflineMode: if any completed
segment was popped, do a final decode, emit SentenceEnd (with punctuation
applied by SendSentenceEnd), reset the speech state and clear the buffers. -/
def popStep (cfg : ServerConfig) (env : OfflineEnv) (c : Conn) : Conn × List Event :=
  if 0 < env.popCount then
    let r1 : Conn × List Event :=
      if c.has_offline_stream = true then
        let cs := { c.current_sentence with result := env.finalText, current_time := c.total_ms }
        ({ c with current_sentence := { cs with active := false }
                  speech_started := false
                  streamed_offset := 0
                  has_offline_stream := false },
         [Event.sentenceEnd cs.index c.total_ms cs.begin_time (cfg.punct env.finalText)])
      else (c, [])
    ({ r1.1 with audio_buffer := [], vad_offset := 0 }, r1.2)
  else (c, [])

/-- ProcessOfflineMode (SenseVoice + VAD). -/
def ProcessOfflineMode (cfg : ServerConfig) (env : OfflineEnv) (c : Conn) : Conn × List Event :=
  if c.has_vad = true ∧ c.has_offline_recognizer = true then
    let len := (Int16ToFloat c.audio_buffer).length
    let r1 := vadLoop env len c
    let r2 := trimStep r1.1 len
    let r3 := feedStep env r2.1 r2.2
    let r4 := popStep cfg env r3.1
    (r4.1, r1.2 ++ r3.2 ++ r4.2)
  else (c, [])

/-- The stream-creation step of ProcessOnlineMode: on the first call, create
the stream and open sentence 1. -/
def onlineInitStep (c : Conn) : Conn × List Event :=
  if c.has_online_stream = false then
    let n := c.sentence_counter + 1
    ({ c with has_online_stream := true
              sentence_counter := n
              current_sentence :=
                { index := n, begin_time := c.total_ms,
                  current_time := c.total_ms, result := "", active := true } },
     [Event.sentenceBegin n c.total_ms])
  else (c, [])

/-- The IsReady branch of ProcessOnlineMode: when the recognizer is ready
and the decoded text changed, update the sentence and emit Result. -/
def onlineReadyStep (env : OnlineEnv) (c : Conn) : Conn × List Event :=
  if env.isReady = true ∧ env.readyText ≠ c.current_sentence.result then
    ({ c with current_sentence :=
         { c.current_sentence with result := env.readyText, current_time := c.total_ms } },
     [Event.result c.current_sentence.index c.total_ms env.readyText])
  else (c, [])

/-- The IsEndpoint branch of ProcessOnlineMode: emit the final SentenceEnd
(punctuation applied by SendSentenceEnd), reset the stream, clear the
accumulated sentence audio and open the next sentence. -/
def onlineEndpointStep (cfg : ServerConfig) (env : OnlineEnv) (c : Conn) :
    Conn × List Event :=
  if env.isEndpoint = true then
    let cs := { c.current_sentence with result := env.finalText, current_time := c.total_ms }
    let n := c.sentence_counter + 1
    ({ c with current_sentence_audio := []
              sentence_counter := n
              current_sentence :=
                { index := n, begin_time := c.total_ms,
                  current_time := c.total_ms, result := "", active := true } },
     [Event.sentenceEnd cs.index c.total_ms cs.begin_time (cfg.punct env.finalText),
      Event.sentenceBegin n c.total_ms])
  else (c, [])

/-- ProcessOnlineMode (streaming recognizer with built-in endpointer). -/
def ProcessOnlineMode (cfg : ServerConfig) (env : OnlineEnv) (c : Conn) : Conn × List Event :=
  if c.has_online_recognizer = true then
    let r1 := onlineInitStep c
    let r2 : Conn × List Event :=
      if (Int16ToFloat r1.1.audio_buffer).length ≠ 0 then
        let c2 := { r1.1 with current_sentence_audio :=
          r1.1.current_sentence_audio ++ r1.1.audio_buffer }
        let rR := onlineReadyStep env c2
        let rE := onlineEndpointStep cfg env rR.1
        (rE.1, rR.2 ++ rE.2)
      else (r1.1, [])
    ({ r2.1 with audio_buffer := [] }, r1.2 ++ r2.2)
  else (c, [])

/-- ProcessAudioBuffer. -/
def ProcessAudioBuffer (cfg : ServerConfig) (env : PipelineEnv) (c : Conn) : Conn × List Event :=
  if c.is_active = false then (c, [])
  else if (c.use_online_recognizer = true ∧ c.has_online_recognizer = false) ∨
          (c.use_online_recognizer = false ∧ c.has_offline_recognizer = false) then (c, [])
  else if c.audio_buffer = [] then (c, [])
  else if c.use_online_recognizer = true then ProcessOnlineMode cfg env.onl c
  else ProcessOfflineMode cfg env.offl c

/-- HandleBinaryMessage.  A frame of 2 * data.length + (1 if oddByte) bytes
decodes to the int16 samples data; num_samples is computed as length / 2
exactly as in the source. -/
def HandleBinaryMessage (cfg : ServerConfig) (env : PipelineEnv)
    (data : List Int) (oddByte : Bool) (c : Conn) : Conn × List Event :=
  if c.is_active = false then (c, [])
  else if c.state ≠ ConnectionState.STARTED ∧ c.state ≠ ConnectionState.PROCESSING then
    (c, [Event.failed ErrorCode.ERR_TRANSCRIPTION_NOT_STARTED_OR_WRONG_STATE])
  else
    let num_samples := (2 * data.length + (if oddByte then 1 else 0)) / 2
    if num_samples = 0 then (c, [])
    else
      let c1 := { c with audio_buffer := c.audio_buffer ++ data
                         total_samples := c.total_samples + num_samples
                         total_ms := SamplesToMs (c.total_samples + num_samples) }
      let c2 := if c1.state = ConnectionState.STARTED
                then { c1 with state := ConnectionState.PROCESSING } else c1
      ProcessAudioBuffer cfg env c2

/-- ZAsrConnection::Close.  In the source, state_ is assigned CLOSING and
then the guard for the Completed event reads state_ again, so that guard
never sees CONNECTED; the model reproduces this literally. -/
def Close (cfg : ServerConfig) (c : Conn) : Conn × List Event :=
  if c.state = ConnectionState.CLOSING ∨ c.state = ConnectionState.CLOSED then (c, [])
  else
    let c1 := { c with state := ConnectionState.CLOSING
                       is_active := false
                       audio_buffer := []
                       current_sentence_audio := []
                       vad_offset := 0 }
    let evs1 :=
      if c1.current_sentence.active = true then
        [Event.sentenceEnd c1.current_sentence.index c1.total_ms
           c1.current_sentence.begin_time (cfg.punct c1.current_sentence.result)]
      else []
    let evs2 := if c1.state ≠ ConnectionState.CONNECTED then [Event.completed] else []
    ({ c1 with state := ConnectionState.CLOSED
               has_vad := false
               has_offline_recognizer := false
               has_online_recognizer := false
               has_offline_stream := false
               has_online_stream := false },
     evs1 ++ evs2)

/-- HandleStopTranscription. -/
def HandleStopTranscription (cfg : ServerConfig) (env : PipelineEnv) (c : Conn) :
    Conn × List Event :=
  if c.state = ConnectionState.CONNECTED then
    (c, [Event.failed ErrorCode.ERR_TRANSCRIPTION_NOT_STARTED])
  else
    let r1 : Conn × List Event :=
      if c.state = ConnectionState.PROCESSING ∧ c.audio_buffer ≠ [] then
        ProcessAudioBuffer cfg env c
      else (c, [])
    let c1 := r1.1
    let evs2 :=
      if c1.current_sentence.active = true then
        [Event.sentenceEnd c1.current_sentence.index (SamplesToMs c1.total_samples)
           c1.current_sentence.begin_time (cfg.punct c1.current_sentence.result)]
      else []
    let r2 := Close cfg c1
    (r2.1, r1.2 ++ evs2 ++ [Event.completed] ++ r2.2)

/-- HandleStartTranscription. -/
def HandleStartTranscription (cfg : ServerConfig) (env : BeginEnv)
    (payload : BeginPayload) (c : Conn) : Conn × List Event :=
  if c.state ≠ ConnectionState.CONNECTED then
    (c, [Event.failed ErrorCode.ERR_INVALID_STATE_FOR_START_TRANSCRIPTION])
  else
    let c1 := { c with client_config := ClientConfig.FromJson payload }
    if c1.client_config.format ≠ "pcm" then
      (c1, [Event.failed ErrorCode.ERR_UNSUPPORTED_AUDIO_FORMAT])
    else if c1.client_config.sample_rate ≠ 16000 then
      (c1, [Event.failed ErrorCode.ERR_UNSUPPORTED_SAMPLE_RATE])
    else if cfg.hasServer = false then
      (c1, [Event.failed ErrorCode.ERR_SERVER_CONFIG_NOT_AVAILABLE])
    else if env.initFails = true then
      (c1, [Event.failed ErrorCode.ERR_ERROR_PROCESSING_START_TRANSCRIPTION])
    else
      let c2 :=
        if cfg.recognizerOnline then
          { c1 with has_online_recognizer := true, use_online_recognizer := true }
        else
          { c1 with has_vad := true, has_offline_recognizer := true,
                    use_online_recognizer := false,
                    vad_window_size := cfg.vad_window_size }
      let raw := payload.session_id.getD ""
      let sid := if raw = "" then env.uuid else raw
      ({ c2 with session_id := sid, state := ConnectionState.STARTED },
       [Event.started sid])

/-- A parsed inbound text frame, as classified by HandleProtocolMessage. -/
inductive TextMsg
  | beginMsg (payload : BeginPayload) (env : BeginEnv)
  | endMsg (env : PipelineEnv)
  | parseError
  | missingHeader
  | missingName
  | unknownName

/-- HandleTextMessage / HandleProtocolMessage dispatch. -/
def HandleTextMessage (cfg : ServerConfig) (m : TextMsg) (c : Conn) : Conn × List Event :=
  match m with
  | .parseError => (c, [Event.failed ErrorCode.ERR_INVALID_JSON_FORMAT])
  | .missingHeader => (c, [Event.failed ErrorCode.ERR_MISSING_OR_INVALID_HEADER])
  | .missingName => (c, [Event.failed ErrorCode.ERR_MISSING_NAME_IN_HEADER])
  | .unknownName => (c, [Event.failed ErrorCode.ERR_UNSUPPORTED_MESSAGE_NAME])
  | .beginMsg payload env => HandleStartTranscription cfg env payload c
  | .endMsg env => HandleStopTranscription cfg env c

/-- One inbound stimulus delivered to a session: a text frame, a binary
frame, or a Close triggered by socket close / timeout reaping (both OnClose
and CheckTimeouts call connection->Close()). -/
inductive Input
  | text (m : TextMsg)
  | binary (data : List Int) (oddByte : Bool) (env : PipelineEnv)
  | socketClose

/-- Deliver one input to the session. -/
def step (cfg : ServerConfig) (c : Conn) : Input → Conn × List Event
  | .text m => HandleTextMessage cfg m c
  | .binary data oddByte env => HandleBinaryMessage cfg env data oddByte c
  | .socketClose => Close cfg c

/-- Deliver a list of inputs, collecting the emitted events in order. -/
def run (cfg : ServerConfig) (c : Conn) : List Input → Conn × List Event
  | [] => (c, [])
  | i :: is =>
    let r1 := step cfg c i
    let r2 := run cfg r1.1 is
    (r2.1, r1.2 ++ r2.2)

/-! ## Voice-print store (src/voice-print-db.cc)

Speaker ids are the strings speaker-N / unknown-N (plus arbitrary strings
that could appear in a hand-edited index); they are modelled by an inductive
id algebra.  The file embeddings/<id>.bin is in bijection with the id, so the
embeddings directory is modelled as a finite map keyed by the id; a file
holds the embedding vector (the int32 dim prefix is determined by it).  The
index std::map is modelled as an association list; the verified properties
are insensitive to the iteration order, so mapInsert appends fresh keys. -/

/-- Speaker id algebra: speaker n renders as the string speaker-N, unknown n
as unknown-N. -/
inductive SpkId
  | speaker (n : Nat)
  | unknown (n : Nat)
  | other (s : String)
deriving DecidableEq, Repr

/-- Association-list membership test (std::map::find != end). -/
def containsKey {α β : Type} [DecidableEq α] (l : List (α × β)) (k : α) : Bool :=
  l.any (fun p => p.1 = k)

/-- Association-list lookup (std::map::find). -/
def lookupKey {α β : Type} [DecidableEq α] (l : List (α × β)) (k : α) : Option β :=
  (l.find? (fun p => p.1 = k)).map (fun p => p.2)

/-- std::map operator[] assignment: replace the entry if the key is present,
insert it otherwise. -/
def mapInsert {α β : Type} [DecidableEq α] (l : List (α × β)) (k : α) (v : β) :
    List (α × β) :=
  if containsKey l k then l.map (fun p => if p.1 = k then (k, v) else p)
  else l ++ [(k, v)]

/-- std::map::erase by key (removes the unique entry with that key). -/
def eraseKey {α β : Type} [DecidableEq α] (l : List (α × β)) (k : α) : List (α × β) :=
  l.eraseP (fun p => p.1 = k)

/-- VoicePrintMetadata. -/
structure VoicePrintMetadata where
  id : SpkId
  name : String := ""
  created_at : String := ""
  updated_at : String := ""
  embedding_file : SpkId
  embedding_dim : Nat := 0
  num_samples : Nat := 0
  audio_samples : List String := []
  gender : String := ""
  language : String := ""
  notes : String := ""
deriving DecidableEq, Repr

/-- UnknownSpeaker. -/
structure UnknownSpeaker where
  id : SpkId
  first_seen : String := ""
  embedding_file : SpkId
  embedding_dim : Nat := 0
  occurrence_count : Nat := 0
  last_seen : String := ""
  avg_confidence : ℚ := 0
deriving DecidableEq, Repr

/-- The embeddings/ directory on disk: id |-> stored embedding vector. -/
abbrev EmbeddingsDir := List (SpkId × List ℚ)

/-- Writing embeddings/<p>.bin (SaveEmbedding: create or truncate). -/
def diskWrite (d : EmbeddingsDir) (p : SpkId) (e : List ℚ) : EmbeddingsDir :=
  d.filter (fun x => x.1 ≠ p) ++ [(p, e)]

/-- Deleting embeddings/<p>.bin (DeleteEmbedding; removing a missing file is
a no-op). -/
def diskDelete (d : EmbeddingsDir) (p : SpkId) : EmbeddingsDir :=
  d.filter (fun x => x.1 ≠ p)

/-- fs::exists for an embedding file. -/
def diskHas (d : EmbeddingsDir) (p : SpkId) : Bool :=
  d.any (fun x => x.1 = p)

/-- In-memory VoicePrintDatabase state. -/
structure VPDatabase where
  voice_prints : List (SpkId × VoicePrintMetadata) := []
  unknown_speakers : List (SpkId × UnknownSpeaker) := []
  next_speaker_num : Nat := 1
  next_unknown_num : Nat := 1
  version : String := "1.0"
  created_at : String := ""
  updated_at : String := ""
deriving DecidableEq, Repr

/-- The id-generation loop shared by GenerateSpeakerId and
GenerateUnknownSpeakerId: do { id = mk n; n = n + 1 } while taken contains
id.  Written with fuel; fuel = taken.length + 1 always suffices because at
most taken.length candidates can be occupied (see genIdAux_fresh below). -/
def genIdAux {β : Type} (mk : Nat → SpkId) (taken : List (SpkId × β)) :
    Nat → Nat → SpkId × Nat
  | 0, n => (mk n, n + 1)
  | fuel + 1, n =>
    if containsKey taken (mk n) then genIdAux mk taken fuel (n + 1)
    else (mk n, n + 1)

/-- GenerateSpeakerId; the second component is the updated database with the
advanced next_speaker_num_. -/
def GenerateSpeakerId (db : VPDatabase) : SpkId × VPDatabase :=
  let r := genIdAux SpkId.speaker db.voice_prints (db.voice_prints.length + 1)
    db.next_speaker_num
  (r.1, { db with next_speaker_num := r.2 })

/-- GenerateUnknownSpeakerId. -/
def GenerateUnknownSpeakerId (db : VPDatabase) : SpkId × VPDatabase :=
  let r := genIdAux SpkId.unknown db.unknown_speakers (db.unknown_speakers.length + 1)
    db.next_unknown_num
  (r.1, { db with next_unknown_num := r.2 })

/-- VoicePrintDatabase::AddVoicePrint: write the embedding file, then insert
or update the metadata and touch updated_at_ (now is GetCurrentTimestamp). -/
def AddVoicePrint (db : VPDatabase) (disk : EmbeddingsDir)
    (metadata : VoicePrintMetadata) (embedding : List ℚ) (now : String) :
    VPDatabase × EmbeddingsDir :=
  let disk1 := diskWrite disk metadata.embedding_file embedding
  ({ db with voice_prints := mapInsert db.voice_prints metadata.id metadata
             updated_at := now },
   disk1)

/-- VoicePrintDatabase::RemoveVoicePrint: delete the embedding file of the
record, erase the record, touch updated_at_; false when the id is absent. -/
def RemoveVoicePrint (db : VPDatabase) (disk : EmbeddingsDir) (speaker_id : SpkId)
    (now : String) : VPDatabase × EmbeddingsDir × Bool :=
  match lookupKey db.voice_prints speaker_id with
  | none => (db, disk, false)
  | some metadata =>
    let disk1 := diskDelete disk metadata.embedding_file
    ({ db with voice_prints := eraseKey db.voice_prints speaker_id
               updated_at := now },
     disk1, true)

/-- The logical content of voice-prints.yaml as written by SaveIndex:
version, created_at, updated_at := GetCurrentTimestamp(), the voice_prints
sequence, and the unknown_speakers sequence only when non-empty. -/
structure IndexFile where
  version : String
  created_at : String
  updated_at : String
  voice_prints : List VoicePrintMetadata
  unknown_speakers : Option (List UnknownSpeaker)
deriving DecidableEq, Repr

/-- VoicePrintDatabase::SaveIndex (= Save, also run by the destructor). -/
def SaveIndex (db : VPDatabase) (now : String) : IndexFile :=
  { version := db.version
    created_at := db.created_at
    updated_at := now
    voice_prints := db.voice_prints.map (fun p => p.2)
    unknown_speakers :=
      if db.unknown_speakers.isEmpty then none
      else some (db.unknown_speakers.map (fun p => p.2)) }

/-- VoicePrintDatabase::AddUnknownSpeaker: allocate unknown-N, persist the
embedding under embeddings/unknown-N.bin, record the metadata. -/
def AddUnknownSpeaker (db : VPDatabase) (disk : EmbeddingsDir)
    (embedding : List ℚ) (now : String) : SpkId × VPDatabase × EmbeddingsDir :=
  let g := GenerateUnknownSpeakerId db
  let id := g.1
  let db1 := g.2
  let unknown : UnknownSpeaker :=
    { id := id, first_seen := now, embedding_file := id,
      embedding_dim := embedding.length, occurrence_count := 1,
      last_seen := now, avg_confidence := 0 }
  let disk1 := diskWrite disk id embedding
  (id,
   { db1 with unknown_speakers := mapInsert db1.unknown_speakers id unknown
              updated_at := now },
   disk1)

/-- The persistence tail of ZSpeakerIdentifier::AddSpeaker: generate a fresh
speaker-N id, build the metadata (the stored embedding is the first
extracted one; audio_samples are the sample paths that CopyAudioSample
succeeded for) and AddVoicePrint it. -/
def AddSpeakerRecord (db : VPDatabase) (disk : EmbeddingsDir) (name : String)
    (embedding : List ℚ) (audio_samples : List String) (now : String) :
    SpkId × VPDatabase × EmbeddingsDir :=
  let g := GenerateSpeakerId db
  let speaker_id := g.1
  let db1 := g.2
  let metadata : VoicePrintMetadata :=
    { id := speaker_id, name := name, created_at := now, updated_at := now,
      embedding_file := speaker_id, embedding_dim := embedding.length,
      num_samples := audio_samples.length, audio_samples := audio_samples }
  let r := AddVoicePrint db1 disk metadata embedding now
  (speaker_id, r.1, r.2)

/-! ## Speaker identification (src/speaker-identifier.cc) -/

/-- ZSpeakerIdentifier::Config (defaults from speaker-identifier.h;
0.75f is exactly 3/4 in binary32). -/
structure SIConfig where
  similarity_threshold : ℚ := 3 / 4
  enable_auto_track : Bool := true
deriving DecidableEq, Repr

/-- ZSpeakerIdentifier::IdentificationResult.  The empty speaker_id string
of the source is Option.none here. -/
structure IdentificationResult where
  speaker_id : Option SpkId := none
  speaker_name : String := ""
  confidence : ℚ := 0
  is_new_speaker : Bool := false
deriving DecidableEq, Repr

/-- The ZSpeakerIdentifier state the verified claims depend on. -/
structure SpeakerIdentifier where
  config : SIConfig := {}
  database : VPDatabase := {}
  initialized : Bool := false
deriving DecidableEq, Repr

/-- Oracle answers of one ProcessSegment call: the embedding the external
extractor produced (none when the segment is too short or extraction
failed), and the name SherpaOnnxSpeakerEmbeddingManagerSearch returned at
the configured threshold (none when no enrolled name exceeded it). -/
structure SegmentEnv where
  extracted : Option (List ℚ)
  searchResult : Option String

/-- ZSpeakerIdentifier::MatchSpeaker: on a manager hit, report the name, the
configured threshold as confidence, and the id of the first database record
carrying that name. -/
def MatchSpeaker (si : SpeakerIdentifier) (searchResult : Option String) :
    IdentificationResult :=
  match searchResult with
  | none => {}
  | some nm =>
    { speaker_name := nm
      confidence := si.config.similarity_threshold
      speaker_id := (si.database.voice_prints.find? (fun p => p.2.name = nm)).map
        (fun p => p.1) }

/-- ZSpeakerIdentifier::CreateUnknownSpeaker. -/
def CreateUnknownSpeaker (si : SpeakerIdentifier) (disk : EmbeddingsDir)
    (embedding : List ℚ) (now : String) :
    Option SpkId × SpeakerIdentifier × EmbeddingsDir :=
  if si.config.enable_auto_track = false then (none, si, disk)
  else
    let r := AddUnknownSpeaker si.database disk embedding now
    (some r.1, { si with database := r.2.1 }, r.2.2)

/-- ZSpeakerIdentifier::ProcessSegment. -/
def ProcessSegment (si : SpeakerIdentifier) (disk : EmbeddingsDir)
    (env : SegmentEnv) (now : String) :
    IdentificationResult × SpeakerIdentifier × EmbeddingsDir :=
  if si.initialized = false then ({}, si, disk)
  else
    match env.extracted with
    | none => ({}, si, disk)
    | some embedding =>
      let result := MatchSpeaker si env.searchResult
      if result.speaker_id = none ∧ si.config.enable_auto_track = true then
        let r := CreateUnknownSpeaker si disk embedding now
        match r.1 with
        | some id =>
          ({ result with speaker_id := some id, speaker_name := "Unknown Speaker",
                         is_new_speaker := true },
           r.2.1, r.2.2)
        | none => (result, r.2.1, r.2.2)
      else (result, si, disk)

/-! ## Punctuation (ZAsrConnection::AddPunctuation and the payload builders) -/

/-- ZAsrConnection::AddPunctuation.  The optional punctuator is a fallible
call: none as its result models the catch branch (an exception), in which
case, as for an absent punctuator or empty input, the input is returned
unchanged. -/
def AddPunctuation (punctuation : Option (String → Option String)) (text : String) :
    String :=
  match punctuation with
  | none => text
  | some f =>
    if text = "" then text
    else
      match f text with
      | some out => out
      | none => text

/-- The payload fields of an outgoing Result / SentenceEnd message. -/
structure OutPayload where
  idx : Nat
  time : Nat
  begin_ms : Option Nat
  text : String
deriving DecidableEq, Repr

/-- The payload SendSentenceEnd builds: punctuation is applied to the final
text. -/
def SendSentenceEndPayload (punctuation : Option (String → Option String))
    (index : Nat) (time_ms : Nat) (begin_time : Nat) (result : String) : OutPayload :=
  { idx := index, time := time_ms, begin_ms := some begin_time,
    text := AddPunctuation punctuation result }

/-- The payload SendTranscriptionResultChanged builds: the text is passed
through unchanged. -/
def SendResultPayload (index : Nat) (time_ms : Nat) (result : String) : OutPayload :=
  { idx := index, time := time_ms, begin_ms := none, text := result }

/-! ## Trace properties -/

/-- Failed events are error responses, not session-progress events; the
ordering guarantee of the spec is over the remaining alphabet. -/
def isFailed : Event → Bool
  | .failed _ => true
  | _ => false

/-- The session-progress subsequence of a trace. -/
def sessionEvents (evs : List Event) : List Event :=
  evs.filter (fun e => ¬ isFailed e)

mutual

/-- Matches (SentenceBegin Result* SentenceEnd)* Completed? . -/
def matchSentences : List Event → Bool
  | [] => true
  | [.completed] => true
  | .sentenceBegin _ _ :: rest => matchInSentence rest
  | _ => false

/-- Matches Result* SentenceEnd ((SentenceBegin ...)* Completed?) . -/
def matchInSentence : List Event → Bool
  | .result _ _ _ :: rest => matchInSentence rest
  | .sentenceEnd _ _ _ _ :: rest => matchSentences rest
  | _ => false

end

/-- Matches Started (SentenceBegin Result* SentenceEnd)* Completed? . -/
def matchesProtocolRegex : List Event → Bool
  | .started _ :: rest => matchSentences rest
  | _ => false

/-- State threaded through a trace while checking the sentence-numbering and
timing properties: idx is the index of the most recent SentenceBegin (0 when
none yet), begin_time its time field, lastTime the time field of the last
timed event. -/
structure TraceSt where
  idx : Nat := 0
  begin_time : Nat := 0
  lastTime : Nat := 0
deriving DecidableEq, Repr

/-- How one event updates the trace-checking state. -/
def traceStep (s : TraceSt) : Event → TraceSt
  | .sentenceBegin i t => { idx := i, begin_time := t, lastTime := t }
  | .result _ t _ => { s with lastTime := t }
  | .sentenceEnd _ t _ _ => { s with lastTime := t }
  | _ => s

/-- The sentence-numbering and timing contract of a trace, starting from
checking state s: every SentenceBegin carries index s.idx + 1 (so indices
are 1, 2, 3, ... in order), every Result and SentenceEnd carries the index
of the most recent SentenceBegin and is preceded by one, the time fields of
SentenceBegin / Result / SentenceEnd are non-decreasing, and every
SentenceEnd carries begin equal to the time of the most recent (= same
index) SentenceBegin. -/
def traceOk : TraceSt → List Event → Prop
  | s, .sentenceBegin i t :: rest =>
    i = s.idx + 1 ∧ s.lastTime ≤ t ∧ traceOk { idx := i, begin_time := t, lastTime := t } rest
  | s, .result i t _ :: rest =>
    i = s.idx ∧ 1 ≤ s.idx ∧ s.lastTime ≤ t ∧ traceOk { s with lastTime := t } rest
  | s, .sentenceEnd i t b _ :: rest =>
    i = s.idx ∧ 1 ≤ s.idx ∧ b = s.begin_time ∧ s.lastTime ≤ t ∧
      traceOk { s with lastTime := t } rest
  | s, _ :: rest => traceOk s rest
  | _, [] => True

/-- The connection-state facts that make the emitted events respect traceOk;
s is the trace-checking state after the events emitted so far. -/
structure SessionInv (c : Conn) (s : TraceSt) : Prop where
  ms_eq : c.total_ms = c.total_samples / 16
  idx_eq : s.idx = c.sentence_counter
  sent_idx : c.current_sentence.index = c.sentence_counter
  begin_eq : 1 ≤ c.sentence_counter → s.begin_time = c.current_sentence.begin_time
  act_pos : c.current_sentence.active = true → 1 ≤ c.sentence_counter
  speech_pos : c.speech_started = true → 1 ≤ c.sentence_counter
  offstream_pos : c.has_offline_stream = true → 1 ≤ c.sentence_counter
  onstream_pos : c.has_online_stream = true → 1 ≤ c.sentence_counter
  time_le : s.lastTime ≤ c.total_ms

/-- A step result is sound: the events it emitted satisfy the contract from
s, and the invariant holds again afterwards. -/
def StepOk (s : TraceSt) (r : Conn × List Event) : Prop :=
  traceOk s r.2 ∧ SessionInv r.1 (r.2.foldl traceStep s)

/-! ## Concrete fixtures used by the counterexample and witness theorems -/

/-- An offline-mode (sense-voice) server configuration with the default
30 ms = 480-sample VAD window and an identity punctuator. -/
def offlineTestCfg : ServerConfig :=
  { recognizerOnline := false, vad_window_size := 480, punct := fun t => t }

/-- A Begin environment whose generated UUID is the string u and whose model
construction succeeds. -/
def okBeginEnv : BeginEnv :=
  { uuid := "u", initFails := false }

/-- A pipeline environment in which the VAD never fires, no segment
completes, no partial update is due, and the online recognizer reports
neither ready nor endpoint. -/
def quietPipeline : PipelineEnv :=
  { offl := { detect := fun _ => false, popCount := 0, updateDue := false,
              interimText := "", finalText := "" }
    onl := { isReady := false, readyText := "", isEndpoint := false, finalText := "" } }

/-! ## Preservation lemmas for the audio pipeline -/

theorem vadLoopAux_preserves (env : OfflineEnv) (len : Nat) :
    ∀ (fuel : Nat) (c : Conn),
      (vadLoopAux env len fuel c).1.state = c.state ∧
      (vadLoopAux env len fuel c).1.is_active = c.is_active ∧
      (vadLoopAux env len fuel c).1.total_samples = c.total_samples ∧
      (vadLoopAux env len fuel c).1.total_ms = c.total_ms ∧
      (vadLoopAux env len fuel c).1.audio_buffer = c.audio_buffer ∧
      (vadLoopAux env len fuel c).1.vad_window_size = c.vad_window_size := by
  intro fuel
  induction fuel with
  | zero => intro c; simp [vadLoopAux]
  | succ n ih =>
    intro c
    unfold vadLoopAux
    by_cases h : 0 < c.vad_window_size ∧ c.vad_offset + c.vad_window_size ≤ len
    · by_cases hd : c.speech_started = false ∧ env.detect c.vad_offset = true
      · simp only [if_pos h, if_pos hd]
        refine ⟨((ih _).1).trans rfl, ((ih _).2.1).trans rfl, ((ih _).2.2.1).trans rfl,
          ((ih _).2.2.2.1).trans rfl, ((ih _).2.2.2.2.1).trans rfl,
          ((ih _).2.2.2.2.2).trans rfl⟩
      · simp only [if_pos h, if_neg hd]
        refine ⟨((ih _).1).trans rfl, ((ih _).2.1).trans rfl, ((ih _).2.2.1).trans rfl,
          ((ih _).2.2.2.1).trans rfl, ((ih _).2.2.2.2.1).trans rfl,
          ((ih _).2.2.2.2.2).trans rfl⟩
    · simp [if_neg h]

theorem trimStep_preserves (c : Conn) (len : Nat) :
    (trimStep c len).1.state = c.state ∧
    (trimStep c len).1.is_active = c.is_active ∧
    (trimStep c len).1.total_samples = c.total_samples ∧
    (trimStep c len).1.total_ms = c.total_ms ∧
    (trimStep c len).1.vad_window_size = c.vad_window_size := by
  unfold trimStep
  split <;> simp

theorem feedStep_preserves (env : OfflineEnv) (c : Conn) (len : Nat) :
    (feedStep env c len).1.state = c.state ∧
    (feedStep env c len).1.is_active = c.is_active ∧
    (feedStep env c len).1.total_samples = c.total_samples ∧
    (feedStep env c len).1.total_ms = c.total_ms ∧
    (feedStep env c len).1.audio_buffer = c.audio_buffer ∧
    (feedStep env c len).1.vad_window_size = c.vad_window_size ∧
    (feedStep env c len).1.vad_offset = c.vad_offset := by
  unfold feedStep
  split_ifs <;> simp_all <;> split <;> simp_all

theorem popStep_preserves (cfg : ServerConfig) (env : OfflineEnv) (c : Conn) :
    (popStep cfg env c).1.state = c.state ∧
    (popStep cfg env c).1.is_active = c.is_active ∧
    (popStep cfg env c).1.total_samples = c.total_samples ∧
    (popStep cfg env c).1.total_ms = c.total_ms ∧
    (popStep cfg env c).1.vad_window_size = c.vad_window_size := by
  unfold popStep
  split
  · split <;> simp
  · simp

theorem ProcessOfflineMode_preserves (cfg : ServerConfig) (env : OfflineEnv) (c : Conn) :
    (ProcessOfflineMode cfg env c).1.state = c.state ∧
    (ProcessOfflineMode cfg env c).1.is_active = c.is_active ∧
    (ProcessOfflineMode cfg env c).1.total_samples = c.total_samples ∧
    (ProcessOfflineMode cfg env c).1.total_ms = c.total_ms := by
  unfold ProcessOfflineMode
  split
  · have h1 := vadLoopAux_preserves env (Int16ToFloat c.audio_buffer).length
      (Int16ToFloat c.audio_buffer).length c
    have h2 := trimStep_preserves (vadLoop env (Int16ToFloat c.audio_buffer).length c).1
      (Int16ToFloat c.audio_buffer).length
    have h3 := feedStep_preserves env
      (trimStep (vadLoop env (Int16ToFloat c.audio_buffer).length c).1
        (Int16ToFloat c.audio_buffer).length).1
      (trimStep (vadLoop env (Int16ToFloat c.audio_buffer).length c).1
        (Int16ToFloat c.audio_buffer).length).2
    have h4 := popStep_preserves cfg env
      (feedStep env
        (trimStep (vadLoop env (Int16ToFloat c.audio_buffer).length c).1
          (Int16ToFloat c.audio_buffer).length).1
        (trimStep (vadLoop env (Int16ToFloat c.audio_buffer).length c).1
          (Int16ToFloat c.audio_buffer).length).2).1
    unfold vadLoop at *
    refine ⟨?_, ?_, ?_, ?_⟩
    · rw [h4.1, h3.1, h2.1, h1.1]
    · rw [h4.2.1, h3.2.1, h2.2.1, h1.2.1]
    · rw [h4.2.2.1, h3.2.2.1, h2.2.2.1, h1.2.2.1]
    · rw [h4.2.2.2.1, h3.2.2.2.1, h2.2.2.2.1, h1.2.2.2.1]
  · simp

theorem onlineInitStep_preserves (c : Conn) :
    (onlineInitStep c).1.state = c.state ∧
    (onlineInitStep c).1.is_active = c.is_active ∧
    (onlineInitStep c).1.total_samples = c.total_samples ∧
    (onlineInitStep c).1.total_ms = c.total_ms := by
  unfold onlineInitStep
  split <;> simp

theorem onlineReadyStep_preserves (env : OnlineEnv) (c : Conn) :
    (onlineReadyStep env c).1.state = c.state ∧
    (onlineReadyStep env c).1.is_active = c.is_active ∧
    (onlineReadyStep env c).1.total_samples = c.total_samples ∧
    (onlineReadyStep env c).1.total_ms = c.total_ms := by
  unfold onlineReadyStep
  split <;> simp

theorem onlineEndpointStep_preserves (cfg : ServerConfig) (env : OnlineEnv) (c : Conn) :
    (onlineEndpointStep cfg env c).1.state = c.state ∧
    (onlineEndpointStep cfg env c).1.is_active = c.is_active ∧
    (onlineEndpointStep cfg env c).1.total_samples = c.total_samples ∧
    (onlineEndpointStep cfg env c).1.total_ms = c.total_ms := by
  unfold onlineEndpointStep
  split <;> simp

theorem ProcessOnlineMode_preserves (cfg : ServerConfig) (env : OnlineEnv) (c : Conn) :
    (ProcessOnlineMode cfg env c).1.state = c.state ∧
    (ProcessOnlineMode cfg env c).1.is_active = c.is_active ∧
    (ProcessOnlineMode cfg env c).1.total_samples = c.total_samples ∧
    (ProcessOnlineMode cfg env c).1.total_ms = c.total_ms := by
  unfold ProcessOnlineMode
  split
  · simp only []
    split
    · have h1 := onlineInitStep_preserves c
      have h2 := onlineReadyStep_preserves env
        { (onlineInitStep c).1 with current_sentence_audio :=
            (onlineInitStep c).1.current_sentence_audio ++ (onlineInitStep c).1.audio_buffer }
      have h3 := onlineEndpointStep_preserves cfg env
        (onlineReadyStep env
          { (onlineInitStep c).1 with current_sentence_audio :=
              (onlineInitStep c).1.current_sentence_audio
                ++ (onlineInitStep c).1.audio_buffer }).1
      refine ⟨?_, ?_, ?_, ?_⟩
      · show (onlineEndpointStep cfg env _).1.state = c.state
        rw [h3.1, h2.1]
        exact h1.1
      · show (onlineEndpointStep cfg env _).1.is_active = c.is_active
        rw [h3.2.1, h2.2.1]
        exact h1.2.1
      · show (onlineEndpointStep cfg env _).1.total_samples = c.total_samples
        rw [h3.2.2.1, h2.2.2.1]
        exact h1.2.2.1
      · show (onlineEndpointStep cfg env _).1.total_ms = c.total_ms
        rw [h3.2.2.2, h2.2.2.2]
        exact h1.2.2.2
    · exact onlineInitStep_preserves c
  · simp

theorem ProcessAudioBuffer_preserves (cfg : ServerConfig) (env : PipelineEnv) (c : Conn) :
    (ProcessAudioBuffer cfg env c).1.state = c.state ∧
    (ProcessAudioBuffer cfg env c).1.is_active = c.is_active ∧
    (ProcessAudioBuffer cfg env c).1.total_samples = c.total_samples ∧
    (ProcessAudioBuffer cfg env c).1.total_ms = c.total_ms := by
  unfold ProcessAudioBuffer
  split
  · simp
  · split
    · simp
    · split
      · simp
      · split
        · exact ProcessOnlineMode_preserves cfg env.onl c
        · exact ProcessOfflineMode_preserves cfg env.offl c

/-- A one-speaker identifier state used by the C9 witness: alice is
enrolled as speaker-1. -/
def aliceIdentifier : SpeakerIdentifier :=
  { initialized := true
    database := { voice_prints :=
      [(SpkId.speaker 1,
        { id := SpkId.speaker 1, name := "alice",
          embedding_file := SpkId.speaker 1 })] } }

/-- A segment whose embedding extraction succeeded and whose manager search
reported alice, used by the C9 witness. -/
def aliceEnv : SegmentEnv :=
  { extracted := some [1], searchResult := some "alice" }

/-- An offline-mode processing connection holding 11 silent samples with a
1-sample VAD window, used by the C3 witness. -/
def silentConn : Conn :=
  { initConn with
      state := ConnectionState.PROCESSING
      has_vad := true
      has_offline_recognizer := true
      vad_window_size := 1
      streamed_offset := 3
      audio_buffer := [0, 0, 0, 0, 0, 0, 0, 0, 0, 0, 0] }

theorem Int16ToFloat_length (l : List Int) : (Int16ToFloat l).length = l.length := by
  unfold Int16ToFloat
  exact List.length_map _ _

theorem vadLoopAux_offset_le (env : OfflineEnv) (len : Nat) :
    ∀ (fuel : Nat) (c : Conn), c.vad_offset ≤ len →
      (vadLoopAux env len fuel c).1.vad_offset ≤ len := by
  intro fuel
  induction fuel with
  | zero => intro c h; simpa [vadLoopAux] using h
  | succ n ih =>
    intro c h
    unfold vadLoopAux
    by_cases hg : 0 < c.vad_window_size ∧ c.vad_offset + c.vad_window_size ≤ len
    · by_cases hd : c.speech_started = false ∧ env.detect c.vad_offset = true
      · simp only [if_pos hg, if_pos hd]
        exact ih _ (by simpa using hg.2)
      · simp only [if_pos hg, if_neg hd]
        exact ih _ (by simpa using hg.2)
    · simpa [if_neg hg] using h

theorem vadLoopAux_no_detect (env : OfflineEnv) (len : Nat)
    (hdet : ∀ o, env.detect o = false) :
    ∀ (fuel : Nat) (c : Conn), c.speech_started = false → 0 < c.vad_window_size →
      len - c.vad_offset ≤ fuel →
      vadLoopAux env len fuel c
        = ({ c with vad_offset := c.vad_offset
              + c.vad_window_size * ((len - c.vad_offset) / c.vad_window_size) }, []) := by
  intro fuel
  induction fuel with
  | zero =>
    intro c hs hW hfuel
    have h0 : len - c.vad_offset = 0 := Nat.le_zero.mp hfuel
    simp [vadLoopAux, h0]
  | succ n ih =>
    intro c hs hW hfuel
    unfold vadLoopAux
    by_cases hg : 0 < c.vad_window_size ∧ c.vad_offset + c.vad_window_size ≤ len
    · rw [if_pos hg, if_neg (by simp [hdet])]
      have hfb : len - ({ c with vad_offset := c.vad_offset + c.vad_window_size } :
          Conn).vad_offset ≤ n := by
        show len - (c.vad_offset + c.vad_window_size) ≤ n
        omega
      have hq : (len - c.vad_offset) / c.vad_window_size
          = (len - c.vad_offset - c.vad_window_size) / c.vad_window_size + 1 := by
        rw [Nat.div_eq_sub_div hW (by omega)]
      have harith :
          c.vad_offset + c.vad_window_size
            + c.vad_window_size
              * ((len - (c.vad_offset + c.vad_window_size)) / c.vad_window_size)
          = c.vad_offset
            + c.vad_window_size * ((len - c.vad_offset) / c.vad_window_size) := by
      -- a / W = (a - W) / W + 1 turns both sides into the same polynomial
        rw [hq, Nat.sub_add_eq]
        ring
      simp only [ih { c with vad_offset := c.vad_offset + c.vad_window_size } hs hW hfb,
        List.nil_append, Prod.mk.injEq]
      refine ⟨?_, trivial⟩
      congr 1
    · have hlt : len - c.vad_offset < c.vad_window_size := by
        rcases Nat.lt_or_ge (len - c.vad_offset) c.vad_window_size with h | h
        · exact h
        · exact absurd ⟨hW, by omega⟩ hg
      rw [if_neg hg]
      have h0 : (len - c.vad_offset) / c.vad_window_size = 0 := Nat.div_eq_of_lt hlt
      simp [h0]

theorem feedStep_no_speech (env : OfflineEnv) (c : Conn) (len : Nat)
    (hs : c.speech_started = false) : feedStep env c len = (c, []) := by
  unfold feedStep
  rw [if_neg (by simp [hs])]

theorem popStep_no_pop (cfg : ServerConfig) (env : OfflineEnv) (c : Conn)
    (hp : env.popCount = 0) : popStep cfg env c = (c, []) := by
  unfold popStep
  rw [if_neg (by omega)]

theorem trimStep_bound (c : Conn) (len : Nat)
    (hb : c.audio_buffer.length = len) (hoff : c.vad_offset ≤ len) :
    (trimStep c len).1.audio_buffer.length = (trimStep c len).2 ∧
    (trimStep c len).1.vad_offset ≤ (trimStep c len).2 := by
  unfold trimStep
  split
  · rename_i hcond
    constructor
    · simp [hb]
      omega
    · simp
      split <;> omega
  · exact ⟨hb, hoff⟩

theorem popStep_bound (cfg : ServerConfig) (env : OfflineEnv) (c : Conn)
    (hoff : c.vad_offset ≤ c.audio_buffer.length) :
    (popStep cfg env c).1.vad_offset ≤ (popStep cfg env c).1.audio_buffer.length := by
  unfold popStep
  split
  · split <;> simp
  · simpa using hoff

theorem ProcessOfflineMode_offset_le (cfg : ServerConfig) (env : OfflineEnv) (c : Conn)
    (hoff : c.vad_offset ≤ c.audio_buffer.length) :
    (ProcessOfflineMode cfg env c).1.vad_offset
      ≤ (ProcessOfflineMode cfg env c).1.audio_buffer.length := by
  unfold ProcessOfflineMode
  split
  · have hlen : (Int16ToFloat c.audio_buffer).length = c.audio_buffer.length :=
      Int16ToFloat_length c.audio_buffer
    have h1o := vadLoopAux_offset_le env (Int16ToFloat c.audio_buffer).length
      (Int16ToFloat c.audio_buffer).length c (by rw [hlen]; exact hoff)
    have h1p := vadLoopAux_preserves env (Int16ToFloat c.audio_buffer).length
      (Int16ToFloat c.audio_buffer).length c
    have h2 := trimStep_bound (vadLoop env (Int16ToFloat c.audio_buffer).length c).1
      (Int16ToFloat c.audio_buffer).length
      (by unfold vadLoop; rw [h1p.2.2.2.2.1, hlen])
      (by unfold vadLoop at *; exact h1o)
    have h3 := feedStep_preserves env
      (trimStep (vadLoop env (Int16ToFloat c.audio_buffer).length c).1
        (Int16ToFloat c.audio_buffer).length).1
      (trimStep (vadLoop env (Int16ToFloat c.audio_buffer).length c).1
        (Int16ToFloat c.audio_buffer).length).2
    refine popStep_bound cfg env _ ?_
    rw [h3.2.2.2.2.2.2, h3.2.2.2.2.1, h2.1]
    exact h2.2
  · simpa using hoff

/-! ## Trace contract lemmas (towards the sentence-numbering claim) -/

theorem traceOk_append (l1 l2 : List Event) : ∀ s : TraceSt,
    traceOk s (l1 ++ l2) ↔ (traceOk s l1 ∧ traceOk (l1.foldl traceStep s) l2) := by
  induction l1 with
  | nil => intro s; simp [traceOk]
  | cons e rest ih =>
    intro s
    cases e <;> simp [traceOk, traceStep, ih, and_assoc]

theorem StepOk_nil {c : Conn} {s : TraceSt} (h : SessionInv c s) : StepOk s (c, []) :=
  ⟨trivial, h⟩

theorem stepOk_glue {s : TraceSt} {evs1 : List Event} {r : Conn × List Event}
    (h1 : traceOk s evs1) (h2 : StepOk (evs1.foldl traceStep s) r) :
    StepOk s (r.1, evs1 ++ r.2) := by
  constructor
  · rw [traceOk_append]
    exact ⟨h1, h2.1⟩
  · show SessionInv r.1 ((evs1 ++ r.2).foldl traceStep s)
    rw [List.foldl_append]
    exact h2.2

theorem vadLoopAux_stepOk (env : OfflineEnv) (len : Nat) :
    ∀ (fuel : Nat) (c : Conn) (s : TraceSt), SessionInv c s →
      StepOk s (vadLoopAux env len fuel c) := by
  intro fuel
  induction fuel with
  | zero => intro c s h; exact StepOk_nil h
  | succ n ih =>
    intro c s h
    unfold vadLoopAux
    by_cases hg : 0 < c.vad_window_size ∧ c.vad_offset + c.vad_window_size ≤ len
    · by_cases hd : c.speech_started = false ∧ env.detect c.vad_offset = true
      · rw [if_pos hg, if_pos hd]
        simp only []
        refine @stepOk_glue _ [Event.sentenceBegin (c.sentence_counter + 1) c.total_ms] _
          ⟨by rw [h.idx_eq], h.time_le, trivial⟩ ?_
        refine ih _ _ ?_
        exact
          { ms_eq := h.ms_eq
            idx_eq := rfl
            sent_idx := rfl
            begin_eq := fun _ => rfl
            act_pos := fun _ => Nat.succ_le_succ (Nat.zero_le _)
            speech_pos := fun _ => Nat.succ_le_succ (Nat.zero_le _)
            offstream_pos := fun _ => Nat.succ_le_succ (Nat.zero_le _)
            onstream_pos := fun _ => Nat.succ_le_succ (Nat.zero_le _)
            time_le := Nat.le_refl _ }
      · rw [if_pos hg, if_neg hd]
        simp only []
        refine @stepOk_glue _ [] _ trivial ?_
        refine ih _ _ ?_
        exact
          { ms_eq := h.ms_eq
            idx_eq := h.idx_eq
            sent_idx := h.sent_idx
            begin_eq := h.begin_eq
            act_pos := h.act_pos
            speech_pos := h.speech_pos
            offstream_pos := h.offstream_pos
            onstream_pos := h.onstream_pos
            time_le := h.time_le }
    · rw [if_neg hg]
      exact StepOk_nil h

theorem trimStep_inv {c : Conn} {s : TraceSt} (len : Nat) (h : SessionInv c s) :
    SessionInv (trimStep c len).1 s := by
  unfold trimStep
  split
  · exact
      { ms_eq := h.ms_eq
        idx_eq := h.idx_eq
        sent_idx := h.sent_idx
        begin_eq := h.begin_eq
        act_pos := h.act_pos
        speech_pos := h.speech_pos
        offstream_pos := h.offstream_pos
        onstream_pos := h.onstream_pos
        time_le := h.time_le }
  · exact h

theorem SessionInv_transport {c c2 : Conn} {s s2 : TraceSt} (h : SessionInv c s)
    (hsidx : s2.idx = s.idx) (hsbt : s2.begin_time = s.begin_time)
    (hst : s2.lastTime ≤ c2.total_ms)
    (hms : c2.total_ms = c.total_ms) (hts : c2.total_samples = c.total_samples)
    (hcnt : c2.sentence_counter = c.sentence_counter)
    (hidx : c2.current_sentence.index = c.current_sentence.index)
    (hbt : c2.current_sentence.begin_time = c.current_sentence.begin_time)
    (hac : c2.current_sentence.active = true → 1 ≤ c.sentence_counter)
    (hsp : c2.speech_started = true → 1 ≤ c.sentence_counter)
    (hof : c2.has_offline_stream = true → 1 ≤ c.sentence_counter)
    (hon : c2.has_online_stream = true → 1 ≤ c.sentence_counter) :
    SessionInv c2 s2 :=
  { ms_eq := by rw [hms, hts]; exact h.ms_eq
    idx_eq := by rw [hsidx, hcnt]; exact h.idx_eq
    sent_idx := by rw [hidx, hcnt]; exact h.sent_idx
    begin_eq := by intro hp; rw [hsbt, hbt]; exact h.begin_eq (by rw [← hcnt]; exact hp)
    act_pos := by intro hp; rw [hcnt]; exact hac hp
    speech_pos := by intro hp; rw [hcnt]; exact hsp hp
    offstream_pos := by intro hp; rw [hcnt]; exact hof hp
    onstream_pos := by intro hp; rw [hcnt]; exact hon hp
    time_le := hst }

theorem bool_pos_of_false {b : Bool} {P : Prop} (hf : b = false) : b = true → P :=
  fun ht => absurd ht (by simp [hf])

theorem feedStep_keeps (env : OfflineEnv) (c : Conn) (len : Nat) :
    (feedStep env c len).1.total_ms = c.total_ms ∧
    (feedStep env c len).1.total_samples = c.total_samples ∧
    (feedStep env c len).1.sentence_counter = c.sentence_counter ∧
    (feedStep env c len).1.current_sentence.index = c.current_sentence.index ∧
    (feedStep env c len).1.current_sentence.begin_time = c.current_sentence.begin_time ∧
    (feedStep env c len).1.current_sentence.active = c.current_sentence.active ∧
    (feedStep env c len).1.speech_started = c.speech_started ∧
    (feedStep env c len).1.has_offline_stream = c.has_offline_stream ∧
    (feedStep env c len).1.has_online_stream = c.has_online_stream := by
  unfold feedStep
  split_ifs <;> simp_all <;> split <;> simp_all

theorem feedStep_snd (env : OfflineEnv) (c : Conn) (len : Nat) :
    (feedStep env c len).2 = [] ∨
    (c.speech_started = true ∧ c.has_offline_stream = true ∧
     (feedStep env c len).2
       = [Event.result c.current_sentence.index c.total_ms env.interimText]) := by
  unfold feedStep
  split_ifs <;> simp_all <;> split <;> simp_all

theorem feedStep_stepOk (env : OfflineEnv) (c : Conn) (len : Nat) (s : TraceSt)
    (h : SessionInv c s) : StepOk s (feedStep env c len) := by
  have hk := feedStep_keeps env c len
  obtain ⟨hms, hts, hcnt, hidx, hbt, hac, hsp, hof, hon⟩ := hk
  rcases feedStep_snd env c len with h2 | ⟨hgs, hgo, h2⟩
  · constructor
    · rw [h2]
      trivial
    · rw [h2]
      exact SessionInv_transport h rfl rfl (by rw [hms]; exact h.time_le) hms hts hcnt hidx
        hbt (fun hp => h.act_pos (hac ▸ hp)) (fun hp => h.speech_pos (hsp ▸ hp))
        (fun hp => h.offstream_pos (hof ▸ hp)) (fun hp => h.onstream_pos (hon ▸ hp))
  · constructor
    · rw [h2]
      exact ⟨by rw [h.sent_idx, ← h.idx_eq], by rw [h.idx_eq]; exact h.speech_pos hgs,
        h.time_le, trivial⟩
    · rw [h2]
      exact SessionInv_transport h rfl rfl (by rw [hms]; exact Nat.le_refl _) hms hts hcnt
        hidx hbt (fun hp => h.act_pos (hac ▸ hp)) (fun hp => h.speech_pos (hsp ▸ hp))
        (fun hp => h.offstream_pos (hof ▸ hp)) (fun hp => h.onstream_pos (hon ▸ hp))

theorem popStep_stepOk (cfg : ServerConfig) (env : OfflineEnv) (c : Conn) (s : TraceSt)
    (h : SessionInv c s) : StepOk s (popStep cfg env c) := by
  unfold popStep
  by_cases h1 : 0 < env.popCount
  · rw [if_pos h1]
    by_cases h2 : c.has_offline_stream = true
    · rw [if_pos h2]
      simp only []
      refine ⟨⟨?_, ?_, ?_, h.time_le, trivial⟩, ?_⟩
      · rw [h.sent_idx, ← h.idx_eq]
      · rw [h.idx_eq]
        exact h.offstream_pos h2
      · exact (h.begin_eq (h.offstream_pos h2)).symm
      · exact
          { ms_eq := h.ms_eq
            idx_eq := h.idx_eq
            sent_idx := h.sent_idx
            begin_eq := h.begin_eq
            act_pos := fun hx => absurd hx (by simp)
            speech_pos := fun hx => absurd hx (by simp)
            offstream_pos := fun hx => absurd hx (by simp)
            onstream_pos := h.onstream_pos
            time_le := Nat.le_refl _ }
    · rw [if_neg h2]
      exact StepOk_nil
        { ms_eq := h.ms_eq
          idx_eq := h.idx_eq
          sent_idx := h.sent_idx
          begin_eq := h.begin_eq
          act_pos := h.act_pos
          speech_pos := h.speech_pos
          offstream_pos := h.offstream_pos
          onstream_pos := h.onstream_pos
          time_le := h.time_le }
  · rw [if_neg h1]
    exact StepOk_nil h

theorem ProcessOfflineMode_stepOk (cfg : ServerConfig) (env : OfflineEnv) (c : Conn)
    (s : TraceSt) (h : SessionInv c s) : StepOk s (ProcessOfflineMode cfg env c) := by
  unfold ProcessOfflineMode
  split
  · simp only []
    have hv := vadLoopAux_stepOk env (Int16ToFloat c.audio_buffer).length
      (Int16ToFloat c.audio_buffer).length c s h
    have ht := @trimStep_inv (vadLoop env (Int16ToFloat c.audio_buffer).length c).1 _
      (Int16ToFloat c.audio_buffer).length hv.2
    have hf := feedStep_stepOk env
      (trimStep (vadLoop env (Int16ToFloat c.audio_buffer).length c).1
        (Int16ToFloat c.audio_buffer).length).1
      (trimStep (vadLoop env (Int16ToFloat c.audio_buffer).length c).1
        (Int16ToFloat c.audio_buffer).length).2 _ ht
    have hp := popStep_stepOk cfg env
      (feedStep env
        (trimStep (vadLoop env (Int16ToFloat c.audio_buffer).length c).1
          (Int16ToFloat c.audio_buffer).length).1
        (trimStep (vadLoop env (Int16ToFloat c.audio_buffer).length c).1
          (Int16ToFloat c.audio_buffer).length).2).1 _ hf.2
    have hglue2 : StepOk ((vadLoop env (Int16ToFloat c.audio_buffer).length c).2.foldl
        traceStep s)
        ((popStep cfg env
            (feedStep env
              (trimStep (vadLoop env (Int16ToFloat c.audio_buffer).length c).1
                (Int16ToFloat c.audio_buffer).length).1
              (trimStep (vadLoop env (Int16ToFloat c.audio_buffer).length c).1
                (Int16ToFloat c.audio_buffer).length).2).1).1,
         (feedStep env
            (trimStep (vadLoop env (Int16ToFloat c.audio_buffer).length c).1
              (Int16ToFloat c.audio_buffer).length).1
            (trimStep (vadLoop env (Int16ToFloat c.audio_buffer).length c).1
              (Int16ToFloat c.audio_buffer).length).2).2
           ++ (popStep cfg env
                (feedStep env
                  (trimStep (vadLoop env (Int16ToFloat c.audio_buffer).length c).1
                    (Int16ToFloat c.audio_buffer).length).1
                  (trimStep (vadLoop env (Int16ToFloat c.audio_buffer).length c).1
                    (Int16ToFloat c.audio_buffer).length).2).1).2) :=
      stepOk_glue hf.1 hp
    have hglue1 := @stepOk_glue _ _
      ((popStep cfg env
          (feedStep env
            (trimStep (vadLoop env (Int16ToFloat c.audio_buffer).length c).1
              (Int16ToFloat c.audio_buffer).length).1
            (trimStep (vadLoop env (Int16ToFloat c.audio_buffer).length c).1
              (Int16ToFloat c.audio_buffer).length).2).1).1,
       (feedStep env
          (trimStep (vadLoop env (Int16ToFloat c.audio_buffer).length c).1
            (Int16ToFloat c.audio_buffer).length).1
          (trimStep (vadLoop env (Int16ToFloat c.audio_buffer).length c).1
            (Int16ToFloat c.audio_buffer).length).2).2
         ++ (popStep cfg env
              (feedStep env
                (trimStep (vadLoop env (Int16ToFloat c.audio_buffer).length c).1
                  (Int16ToFloat c.audio_buffer).length).1
                (trimStep (vadLoop env (Int16ToFloat c.audio_buffer).length c).1
                  (Int16ToFloat c.audio_buffer).length).2).1).2)
      (hv.1) hglue2
    simpa [List.append_assoc] using hglue1
  · exact StepOk_nil h

theorem onlineInitStep_stepOk (c : Conn) (s : TraceSt) (h : SessionInv c s) :
    StepOk s (onlineInitStep c) ∧ (onlineInitStep c).1.has_online_stream = true
      ∨ StepOk s (onlineInitStep c) ∧ onlineInitStep c = (c, []) := by
  unfold onlineInitStep
  by_cases hg : c.has_online_stream = false
  · rw [if_pos hg]
    simp only []
    left
    refine ⟨⟨⟨by rw [h.idx_eq], h.time_le, trivial⟩, ?_⟩, by trivial⟩
    exact
      { ms_eq := h.ms_eq
        idx_eq := rfl
        sent_idx := rfl
        begin_eq := fun _ => rfl
        act_pos := fun _ => Nat.succ_le_succ (Nat.zero_le _)
        speech_pos := fun _ => Nat.succ_le_succ (Nat.zero_le _)
        offstream_pos := fun _ => Nat.succ_le_succ (Nat.zero_le _)
        onstream_pos := fun _ => Nat.succ_le_succ (Nat.zero_le _)
        time_le := Nat.le_refl _ }
  · rw [if_neg hg]
    right
    exact ⟨StepOk_nil h, rfl⟩

theorem onlineInitStep_stream (c : Conn) :
    (onlineInitStep c).1.has_online_stream = true ∨
    ((onlineInitStep c).1 = c ∧ c.has_online_stream = true) := by
  unfold onlineInitStep
  by_cases hg : c.has_online_stream = false
  · rw [if_pos hg]
    left
    rfl
  · rw [if_neg hg]
    right
    exact ⟨rfl, by simpa using hg⟩

theorem onlineReadyStep_stepOk (env : OnlineEnv) (c : Conn) (s : TraceSt)
    (h : SessionInv c s) (hpos : c.has_online_stream = true) :
    StepOk s (onlineReadyStep env c) := by
  unfold onlineReadyStep
  split
  · simp only []
    refine ⟨⟨?_, ?_, h.time_le, trivial⟩, ?_⟩
    · rw [h.sent_idx, ← h.idx_eq]
    · rw [h.idx_eq]
      exact h.onstream_pos hpos
    · exact
        { ms_eq := h.ms_eq
          idx_eq := h.idx_eq
          sent_idx := h.sent_idx
          begin_eq := h.begin_eq
          act_pos := h.act_pos
          speech_pos := h.speech_pos
          offstream_pos := h.offstream_pos
          onstream_pos := h.onstream_pos
          time_le := Nat.le_refl _ }
  · exact StepOk_nil h

theorem onlineReadyStep_keeps (env : OnlineEnv) (c : Conn) :
    (onlineReadyStep env c).1.has_online_stream = c.has_online_stream := by
  unfold onlineReadyStep
  split <;> simp

theorem onlineEndpointStep_stepOk (cfg : ServerConfig) (env : OnlineEnv) (c : Conn)
    (s : TraceSt) (h : SessionInv c s) (hpos : c.has_online_stream = true) :
    StepOk s (onlineEndpointStep cfg env c) := by
  unfold onlineEndpointStep
  split
  · simp only []
    refine ⟨⟨?_, ?_, ?_, h.time_le, ?_, Nat.le_refl _, trivial⟩, ?_⟩
    · rw [h.sent_idx, ← h.idx_eq]
    · rw [h.idx_eq]
      exact h.onstream_pos hpos
    · exact (h.begin_eq (h.onstream_pos hpos)).symm
    · show c.sentence_counter + 1 = ({ s with lastTime := c.total_ms } : TraceSt).idx + 1
      rw [show ({ s with lastTime := c.total_ms } : TraceSt).idx = s.idx from rfl, h.idx_eq]
    · exact
        { ms_eq := h.ms_eq
          idx_eq := rfl
          sent_idx := rfl
          begin_eq := fun _ => rfl
          act_pos := fun _ => Nat.succ_le_succ (Nat.zero_le _)
          speech_pos := fun _ => Nat.succ_le_succ (Nat.zero_le _)
          offstream_pos := fun _ => Nat.succ_le_succ (Nat.zero_le _)
          onstream_pos := fun _ => Nat.succ_le_succ (Nat.zero_le _)
          time_le := Nat.le_refl _ }
  · exact StepOk_nil h

theorem ProcessOnlineMode_stepOk (cfg : ServerConfig) (env : OnlineEnv) (c : Conn)
    (s : TraceSt) (h : SessionInv c s) : StepOk s (ProcessOnlineMode cfg env c) := by
  unfold ProcessOnlineMode
  split
  · simp only []
    have hinit : StepOk s (onlineInitStep c) ∧ (onlineInitStep c).1.has_online_stream = true
        ∨ StepOk s (onlineInitStep c) ∧ onlineInitStep c = (c, []) :=
      onlineInitStep_stepOk c s h
    have hio : StepOk s (onlineInitStep c) := by
      rcases hinit with ⟨h1, _⟩ | ⟨h1, _⟩ <;> exact h1
    have hstream : (onlineInitStep c).1.has_online_stream = true := by
      rcases onlineInitStep_stream c with h1 | ⟨h1, h2⟩
      · exact h1
      · rw [h1]
        exact h2
    split
    · set cA := { (onlineInitStep c).1 with current_sentence_audio :=
        (onlineInitStep c).1.current_sentence_audio ++ (onlineInitStep c).1.audio_buffer }
        with hcA
      have hInvA : SessionInv cA ((onlineInitStep c).2.foldl traceStep s) :=
        SessionInv_transport hio.2 rfl rfl hio.2.time_le rfl rfl rfl rfl rfl
          (fun hp => hio.2.act_pos hp) (fun hp => hio.2.speech_pos hp)
          (fun hp => hio.2.offstream_pos hp) (fun hp => hio.2.onstream_pos hp)
      have hstrA : cA.has_online_stream = true := hstream
      have hR := onlineReadyStep_stepOk env cA _ hInvA hstrA
      have hstrR : (onlineReadyStep env cA).1.has_online_stream = true := by
        rw [onlineReadyStep_keeps]
        exact hstrA
      have hE := onlineEndpointStep_stepOk cfg env (onlineReadyStep env cA).1 _ hR.2 hstrR
      have hglue2 := stepOk_glue hR.1 hE
      have hglue1 := stepOk_glue hio.1 hglue2
      refine ⟨hglue1.1, ?_⟩
      have h2 := hglue1.2
      exact SessionInv_transport h2 rfl rfl h2.time_le rfl rfl rfl rfl rfl
        (fun hp => h2.act_pos hp) (fun hp => h2.speech_pos hp)
        (fun hp => h2.offstream_pos hp) (fun hp => h2.onstream_pos hp)
    · refine ⟨by simpa using hio.1, ?_⟩
      have h2 := hio.2
      have h3 : SessionInv ((onlineInitStep c).1)
          (((onlineInitStep c).2 ++ []).foldl traceStep s) := by
        rw [List.append_nil]
        exact h2
      exact SessionInv_transport h3 rfl rfl h3.time_le rfl rfl rfl rfl rfl
        (fun hp => h3.act_pos hp) (fun hp => h3.speech_pos hp)
        (fun hp => h3.offstream_pos hp) (fun hp => h3.onstream_pos hp)
  · exact StepOk_nil h

theorem ProcessAudioBuffer_stepOk (cfg : ServerConfig) (env : PipelineEnv) (c : Conn)
    (s : TraceSt) (h : SessionInv c s) : StepOk s (ProcessAudioBuffer cfg env c) := by
  unfold ProcessAudioBuffer
  split
  · exact StepOk_nil h
  · split
    · exact StepOk_nil h
    · split
      · exact StepOk_nil h
      · split
        · exact ProcessOnlineMode_stepOk cfg env.onl c s h
        · exact ProcessOfflineMode_stepOk cfg env.offl c s h

theorem HandleBinaryMessage_stepOk (cfg : ServerConfig) (env : PipelineEnv)
    (data : List Int) (oddByte : Bool) (c : Conn) (s : TraceSt) (h : SessionInv c s) :
    StepOk s (HandleBinaryMessage cfg env data oddByte c) := by
  unfold HandleBinaryMessage
  split
  · exact StepOk_nil h
  · split
    · exact ⟨trivial, h⟩
    · simp only []
      by_cases hz : (2 * data.length + if oddByte then 1 else 0) / 2 = 0
      · rw [if_pos hz]
        exact StepOk_nil h
      · rw [if_neg hz]
        have hms : c.total_ms ≤ SamplesToMs (c.total_samples
            + (2 * data.length + if oddByte then 1 else 0) / 2) := by
          rw [h.ms_eq]
          exact Nat.div_le_div_right (Nat.le_add_right _ _)
        refine ProcessAudioBuffer_stepOk cfg env _ s ?_
        split
        · exact
            { ms_eq := rfl
              idx_eq := h.idx_eq
              sent_idx := h.sent_idx
              begin_eq := h.begin_eq
              act_pos := h.act_pos
              speech_pos := h.speech_pos
              offstream_pos := h.offstream_pos
              onstream_pos := h.onstream_pos
              time_le := Nat.le_trans h.time_le hms }
        · exact
            { ms_eq := rfl
              idx_eq := h.idx_eq
              sent_idx := h.sent_idx
              begin_eq := h.begin_eq
              act_pos := h.act_pos
              speech_pos := h.speech_pos
              offstream_pos := h.offstream_pos
              onstream_pos := h.onstream_pos
              time_le := Nat.le_trans h.time_le hms }

theorem Close_stepOk (cfg : ServerConfig) (c : Conn) (s : TraceSt) (h : SessionInv c s) :
    StepOk s (Close cfg c) := by
  unfold Close
  split
  · exact StepOk_nil h
  · simp only []
    by_cases ha : c.current_sentence.active = true
    · rw [if_pos ha]
      constructor
      · rw [traceOk_append]
        refine ⟨⟨by rw [h.sent_idx, ← h.idx_eq], by rw [h.idx_eq]; exact h.act_pos ha,
          (h.begin_eq (h.act_pos ha)).symm, h.time_le, trivial⟩, ?_⟩
        split <;> trivial
      · rw [List.foldl_append]
        split <;>
          exact SessionInv_transport h rfl rfl (Nat.le_refl _) rfl rfl rfl rfl rfl
            h.act_pos h.speech_pos (bool_pos_of_false rfl) (bool_pos_of_false rfl)
    · rw [if_neg ha]
      rw [List.nil_append]
      constructor
      · split <;> trivial
      · split <;>
          exact SessionInv_transport h rfl rfl h.time_le rfl rfl rfl rfl rfl
            h.act_pos h.speech_pos (bool_pos_of_false rfl) (bool_pos_of_false rfl)

theorem HandleStopTranscription_stepOk (cfg : ServerConfig) (env : PipelineEnv) (c : Conn)
    (s : TraceSt) (h : SessionInv c s) : StepOk s (HandleStopTranscription cfg env c) := by
  unfold HandleStopTranscription
  split
  · exact ⟨trivial, h⟩
  · simp only []
    have hr1 : StepOk s (if c.state = ConnectionState.PROCESSING ∧ c.audio_buffer ≠ []
        then ProcessAudioBuffer cfg env c else (c, [])) := by
      split
      · exact ProcessAudioBuffer_stepOk cfg env c s h
      · exact StepOk_nil h
    set r1 := if c.state = ConnectionState.PROCESSING ∧ c.audio_buffer ≠ []
        then ProcessAudioBuffer cfg env c else (c, []) with hr1def
    have hInv1 : SessionInv r1.1 (r1.2.foldl traceStep s) := hr1.2
    set s1 := r1.2.foldl traceStep s with hs1def
    have hglue3 : StepOk s1
        ((Close cfg r1.1).1,
          (if r1.1.current_sentence.active = true then
            [Event.sentenceEnd r1.1.current_sentence.index (SamplesToMs r1.1.total_samples)
              r1.1.current_sentence.begin_time (cfg.punct r1.1.current_sentence.result)]
           else []) ++ [Event.completed] ++ (Close cfg r1.1).2) := by
      by_cases ha : r1.1.current_sentence.active = true
      · rw [if_pos ha]
        have hse : traceOk s1 [Event.sentenceEnd r1.1.current_sentence.index
            (SamplesToMs r1.1.total_samples) r1.1.current_sentence.begin_time
            (cfg.punct r1.1.current_sentence.result)] := by
          refine ⟨by rw [hInv1.sent_idx, ← hInv1.idx_eq],
            by rw [hInv1.idx_eq]; exact hInv1.act_pos ha,
            (hInv1.begin_eq (hInv1.act_pos ha)).symm, ?_, trivial⟩
          show s1.lastTime ≤ r1.1.total_samples / 16
          rw [← hInv1.ms_eq]
          exact hInv1.time_le
        have hmid : StepOk ([Event.sentenceEnd r1.1.current_sentence.index
            (SamplesToMs r1.1.total_samples) r1.1.current_sentence.begin_time
            (cfg.punct r1.1.current_sentence.result)].foldl traceStep s1)
            ((Close cfg r1.1).1, [Event.completed] ++ (Close cfg r1.1).2) := by
          refine @stepOk_glue _ [Event.completed] _ trivial ?_
          refine Close_stepOk cfg r1.1 _ ?_
          refine SessionInv_transport hInv1 rfl rfl ?_ rfl rfl rfl rfl rfl
            (fun hp => hInv1.act_pos hp) (fun hp => hInv1.speech_pos hp)
            (fun hp => hInv1.offstream_pos hp) (fun hp => hInv1.onstream_pos hp)
          show SamplesToMs r1.1.total_samples ≤ r1.1.total_ms
          rw [hInv1.ms_eq]
          exact Nat.le_refl _
        have := stepOk_glue hse hmid
        simpa [List.append_assoc] using this
      · rw [if_neg ha]
        refine @stepOk_glue _ [] _ trivial ?_
        have hmid : StepOk s1 ((Close cfg r1.1).1, [Event.completed] ++ (Close cfg r1.1).2) := by
          refine @stepOk_glue _ [Event.completed] _ trivial ?_
          exact Close_stepOk cfg r1.1 _ hInv1
        simpa using hmid
    have hfinal := stepOk_glue hr1.1 hglue3
    simpa [List.append_assoc] using hfinal

theorem HandleStartTranscription_stepOk (cfg : ServerConfig) (env : BeginEnv)
    (payload : BeginPayload) (c : Conn) (s : TraceSt) (h : SessionInv c s) :
    StepOk s (HandleStartTranscription cfg env payload c) := by
  have hcc : SessionInv { c with client_config := ClientConfig.FromJson payload } s :=
    SessionInv_transport h rfl rfl h.time_le rfl rfl rfl rfl rfl
      (fun hp => h.act_pos hp) (fun hp => h.speech_pos hp)
      (fun hp => h.offstream_pos hp) (fun hp => h.onstream_pos hp)
  unfold HandleStartTranscription
  split
  · exact ⟨trivial, h⟩
  · simp only []
    by_cases h1 : (ClientConfig.FromJson payload).format ≠ "pcm"
    · rw [if_pos h1]
      exact ⟨trivial, hcc⟩
    · rw [if_neg h1]
      by_cases h2 : (ClientConfig.FromJson payload).sample_rate ≠ 16000
      · rw [if_pos h2]
        exact ⟨trivial, hcc⟩
      · rw [if_neg h2]
        by_cases h3 : cfg.hasServer = false
        · rw [if_pos h3]
          exact ⟨trivial, hcc⟩
        · rw [if_neg h3]
          by_cases h4 : env.initFails = true
          · rw [if_pos h4]
            exact ⟨trivial, hcc⟩
          · rw [if_neg h4]
            refine ⟨trivial, ?_⟩
            split
            · exact SessionInv_transport hcc rfl rfl hcc.time_le rfl rfl rfl rfl rfl
                (fun hp => hcc.act_pos hp) (fun hp => hcc.speech_pos hp)
                (fun hp => hcc.offstream_pos hp) (fun hp => hcc.onstream_pos hp)
            · exact SessionInv_transport hcc rfl rfl hcc.time_le rfl rfl rfl rfl rfl
                (fun hp => hcc.act_pos hp) (fun hp => hcc.speech_pos hp)
                (fun hp => hcc.offstream_pos hp) (fun hp => hcc.onstream_pos hp)

theorem HandleTextMessage_stepOk (cfg : ServerConfig) (m : TextMsg) (c : Conn)
    (s : TraceSt) (h : SessionInv c s) : StepOk s (HandleTextMessage cfg m c) := by
  cases m with
  | beginMsg payload env => exact HandleStartTranscription_stepOk cfg env payload c s h
  | endMsg env => exact HandleStopTranscription_stepOk cfg env c s h
  | parseError => exact ⟨trivial, h⟩
  | missingHeader => exact ⟨trivial, h⟩
  | missingName => exact ⟨trivial, h⟩
  | unknownName => exact ⟨trivial, h⟩

theorem step_stepOk (cfg : ServerConfig) (c : Conn) (i : Input) (s : TraceSt)
    (h : SessionInv c s) : StepOk s (step cfg c i) := by
  cases i with
  | text m => exact HandleTextMessage_stepOk cfg m c s h
  | binary data oddByte env => exact HandleBinaryMessage_stepOk cfg env data oddByte c s h
  | socketClose => exact Close_stepOk cfg c s h

theorem run_stepOk (cfg : ServerConfig) :
    ∀ (inputs : List Input) (c : Conn) (s : TraceSt), SessionInv c s →
      StepOk s (run cfg c inputs) := by
  intro inputs
  induction inputs with
  | nil => intro c s h; exact StepOk_nil h
  | cons i rest ih =>
    intro c s h
    unfold run
    simp only []
    exact stepOk_glue (step_stepOk cfg c i s h).1 (ih _ _ (step_stepOk cfg c i s h).2)

theorem SessionInv_init : SessionInv initConn {} :=
  { ms_eq := rfl
    idx_eq := rfl
    sent_idx := rfl
    begin_eq := fun hp => absurd hp (by simp [initConn])
    act_pos := fun hp => absurd hp (by simp [initConn])
    speech_pos := fun hp => absurd hp (by simp [initConn])
    offstream_pos := fun hp => absurd hp (by simp [initConn])
    onstream_pos := fun hp => absurd hp (by simp [initConn])
    time_le := Nat.le_refl _ }

/-! ## Claim theorems -/

/-- C1: the claim states that for every session the emitted events match
Started (SentenceBegin Result* SentenceEnd)* Completed?.  The code violates
this: HandleStopTranscription emits Completed and then calls Close(), which
sets state_ to CLOSING and then, because its Completed guard re-reads state_
after that assignment, unconditionally emits a second Completed.  This
theorem evaluates the model at the failing input (a valid Begin followed by
a single End): the session emits Started, Completed, Completed, which does
not match the regular expression. -/
theorem single_end_emits_completed_twice :
    (run offlineTestCfg initConn
      [Input.text (TextMsg.beginMsg {} okBeginEnv),
       Input.text (TextMsg.endMsg quietPipeline)]).2
      = [Event.started "u", Event.completed, Event.completed] ∧
    matchesProtocolRegex (sessionEvents (run offlineTestCfg initConn
      [Input.text (TextMsg.beginMsg {} okBeginEnv),
       Input.text (TextMsg.endMsg quietPipeline)]).2) = false := by
  constructor <;> rfl

/-- C2: the claim states that two End messages yield at most one Completed
in total, the second finding the session in Closing and emitting nothing.
In the code the first End already emits Completed twice (see C1) and leaves
the session in CLOSED, and HandleStopTranscription only rejects End in
CONNECTED, so a second End emits yet another Completed.  This theorem
evaluates the model at Begin; End; End: three Completed events are emitted
and the state after the first End is already CLOSED. -/
theorem double_end_emits_three_completed :
    (run offlineTestCfg initConn
      [Input.text (TextMsg.beginMsg {} okBeginEnv),
       Input.text (TextMsg.endMsg quietPipeline),
       Input.text (TextMsg.endMsg quietPipeline)]).2
      = [Event.started "u", Event.completed, Event.completed, Event.completed] ∧
    ((run offlineTestCfg initConn
      [Input.text (TextMsg.beginMsg {} okBeginEnv),
       Input.text (TextMsg.endMsg quietPipeline),
       Input.text (TextMsg.endMsg quietPipeline)]).2.countP
        (fun e => e = Event.completed) = 3) ∧
    (run offlineTestCfg initConn
      [Input.text (TextMsg.beginMsg {} okBeginEnv),
       Input.text (TextMsg.endMsg quietPipeline)]).1.state
      = ConnectionState.CLOSED := by
  refine ⟨rfl, ?_, rfl⟩
  decide

/-- C4 counterexample: the claim quantifies over every binary frame
delivered to a session, but a 2-byte frame delivered in the CONNECTED state
is rejected with Failed 1006 and the sample counter does not advance by
2 / 2 = 1. -/
theorem binary_frame_in_connected_state_does_not_advance :
    ¬ ((step offlineTestCfg initConn (Input.binary [17] false quietPipeline)).1.total_samples
        = initConn.total_samples + (2 * [(17 : Int)].length + 0) / 2) ∧
    (step offlineTestCfg initConn (Input.binary [17] false quietPipeline)).2
      = [Event.failed 1006] := by
  constructor
  · decide
  · rfl

/-- C4 amended: for every binary frame delivered while the connection is
active and the session is in Started or Processing, the sample counter
advances by exactly floor(N / 2) for a frame of N bytes (the trailing odd
byte is ignored), a frame of 0 or 1 bytes leaves the session completely
unchanged and emits nothing (in particular Started does not move to
Processing), and a frame with at least one sample moves the state to
Processing. -/
theorem binary_frame_advances_sample_counter (cfg : ServerConfig) (env : PipelineEnv)
    (data : List Int) (oddByte : Bool) (c : Conn)
    (hact : c.is_active = true)
    (hst : c.state = ConnectionState.STARTED ∨ c.state = ConnectionState.PROCESSING) :
    (HandleBinaryMessage cfg env data oddByte c).1.total_samples
      = c.total_samples + (2 * data.length + (if oddByte then 1 else 0)) / 2 ∧
    (data = [] → HandleBinaryMessage cfg env data oddByte c = (c, [])) ∧
    (data ≠ [] →
      (HandleBinaryMessage cfg env data oddByte c).1.state = ConnectionState.PROCESSING) := by
  have hnum : (2 * data.length + (if oddByte then 1 else 0)) / 2 = data.length := by
    cases oddByte <;> simp
    omega
  have hst2 : ¬ (c.state ≠ ConnectionState.STARTED ∧ c.state ≠ ConnectionState.PROCESSING) := by
    rcases hst with h | h <;> simp [h]
  unfold HandleBinaryMessage
  rw [if_neg (by simp [hact]), if_neg hst2, hnum]
  by_cases hd : data = []
  · subst hd
    simp
  · have hlen : data.length ≠ 0 := by simpa using hd
    rw [if_neg hlen]
    refine ⟨?_, by simp [hd], ?_⟩
    · exact (ProcessAudioBuffer_preserves cfg env _).2.2.1.trans (by split <;> rfl)
    · intro hd2
      refine (ProcessAudioBuffer_preserves cfg env _).1.trans ?_
      rcases hst with h | h <;> simp [h]

/-- Witness for the C4 amended theorem: a 5-byte frame (two samples and one
trailing odd byte) in the Started state advances the counter by exactly 2
and moves the session to Processing. -/
theorem binary_frame_advances_sample_counter_witness :
    ({ initConn with state := ConnectionState.STARTED } : Conn).is_active = true ∧
    (({ initConn with state := ConnectionState.STARTED } : Conn).state
       = ConnectionState.STARTED ∨
     ({ initConn with state := ConnectionState.STARTED } : Conn).state
       = ConnectionState.PROCESSING) ∧
    ((HandleBinaryMessage offlineTestCfg quietPipeline [5, 6] true
        { initConn with state := ConnectionState.STARTED }).1.total_samples
      = ({ initConn with state := ConnectionState.STARTED } : Conn).total_samples
          + (2 * [(5 : Int), 6].length + (if true then 1 else 0)) / 2 ∧
     ([(5 : Int), 6] = [] → HandleBinaryMessage offlineTestCfg quietPipeline [5, 6] true
        { initConn with state := ConnectionState.STARTED }
        = ({ initConn with state := ConnectionState.STARTED }, [])) ∧
     ([(5 : Int), 6] ≠ [] →
      (HandleBinaryMessage offlineTestCfg quietPipeline [5, 6] true
        { initConn with state := ConnectionState.STARTED }).1.state
        = ConnectionState.PROCESSING)) :=
  ⟨rfl, Or.inl rfl,
   binary_frame_advances_sample_counter offlineTestCfg quietPipeline [5, 6] true
     { initConn with state := ConnectionState.STARTED } rfl (Or.inl rfl)⟩

/-- C3: in offline-with-VAD mode, on a ProcessAudioBuffer run in which
speech has not started (and the VAD reports no detection and yields no
completed segment), if the float buffer is longer than 10 times the VAD
window size W then both the raw int16 buffer and the float buffer (the
float buffer is the Int16ToFloat image of the raw one) are trimmed to
exactly their last 10 * W samples, and the VAD offset (as advanced by the
window loop of this run) and the decoder-fed offset are decreased by the
number of removed samples, clamping at 0.  Moreover, after every
offline-mode run the VAD offset is at most the float-buffer length. -/
theorem offline_silence_trim (cfg : ServerConfig) (env : PipelineEnv) (c : Conn)
    (hact : c.is_active = true)
    (honl : c.use_online_recognizer = false)
    (hvad : c.has_vad = true)
    (hrec : c.has_offline_recognizer = true)
    (hbound : c.vad_offset ≤ c.audio_buffer.length) :
    (ProcessAudioBuffer cfg env c).1.vad_offset
      ≤ ((Int16ToFloat (ProcessAudioBuffer cfg env c).1.audio_buffer)).length ∧
    (c.speech_started = false → (∀ o, env.offl.detect o = false) →
     env.offl.popCount = 0 → 0 < c.vad_window_size →
     10 * c.vad_window_size < c.audio_buffer.length →
      ((ProcessAudioBuffer cfg env c).1.audio_buffer
         = c.audio_buffer.drop (c.audio_buffer.length - 10 * c.vad_window_size) ∧
       Int16ToFloat (ProcessAudioBuffer cfg env c).1.audio_buffer
         = (Int16ToFloat c.audio_buffer).drop
             (c.audio_buffer.length - 10 * c.vad_window_size) ∧
       (ProcessAudioBuffer cfg env c).1.audio_buffer.length = 10 * c.vad_window_size ∧
       (ProcessAudioBuffer cfg env c).1.vad_offset
         = (if c.audio_buffer.length - 10 * c.vad_window_size
              < c.vad_offset + c.vad_window_size *
                  ((c.audio_buffer.length - c.vad_offset) / c.vad_window_size)
            then c.vad_offset + c.vad_window_size *
                  ((c.audio_buffer.length - c.vad_offset) / c.vad_window_size)
                 - (c.audio_buffer.length - 10 * c.vad_window_size)
            else 0) ∧
       (ProcessAudioBuffer cfg env c).1.streamed_offset
         = (if c.audio_buffer.length - 10 * c.vad_window_size < c.streamed_offset
            then c.streamed_offset - (c.audio_buffer.length - 10 * c.vad_window_size)
            else 0))) := by
  constructor
  · rw [Int16ToFloat_length]
    unfold ProcessAudioBuffer
    rw [if_neg (by simp [hact])]
    rw [if_neg (by simp [honl, hrec])]
    by_cases hbuf : c.audio_buffer = []
    · rw [if_pos hbuf]
      simpa using hbound
    · rw [if_neg hbuf, if_neg (by simp [honl])]
      exact ProcessOfflineMode_offset_le cfg env.offl c hbound
  · intro hs hdet hpop hW hlong
    have hbuf : c.audio_buffer ≠ [] := by
      intro h
      rw [h] at hlong
      simp at hlong
    have hPAB : ProcessAudioBuffer cfg env c = ProcessOfflineMode cfg env.offl c := by
      unfold ProcessAudioBuffer
      rw [if_neg (by simp [hact]), if_neg (by simp [honl, hrec]), if_neg hbuf,
        if_neg (by simp [honl])]
    rw [hPAB]
    unfold ProcessOfflineMode
    rw [if_pos (by simp [hvad, hrec])]
    have hlen : (Int16ToFloat c.audio_buffer).length = c.audio_buffer.length :=
      Int16ToFloat_length c.audio_buffer
    have hvl := vadLoopAux_no_detect env.offl (Int16ToFloat c.audio_buffer).length hdet
      (Int16ToFloat c.audio_buffer).length c hs hW (by omega)
    have hvl2 : vadLoop env.offl (Int16ToFloat c.audio_buffer).length c
        = ({ c with vad_offset := c.vad_offset
              + c.vad_window_size
                  * ((c.audio_buffer.length - c.vad_offset) / c.vad_window_size) }, []) := by
      unfold vadLoop
      rw [hvl, hlen]
    have htrim : trimStep ({ c with vad_offset := c.vad_offset
          + c.vad_window_size
              * ((c.audio_buffer.length - c.vad_offset) / c.vad_window_size) } : Conn)
          (Int16ToFloat c.audio_buffer).length
        = ({ c with
              streamed_offset :=
                if c.audio_buffer.length - 10 * c.vad_window_size < c.streamed_offset
                then c.streamed_offset - (c.audio_buffer.length - 10 * c.vad_window_size)
                else 0
              vad_offset :=
                if c.audio_buffer.length - 10 * c.vad_window_size
                    < c.vad_offset + c.vad_window_size
                        * ((c.audio_buffer.length - c.vad_offset) / c.vad_window_size)
                then c.vad_offset + c.vad_window_size
                      * ((c.audio_buffer.length - c.vad_offset) / c.vad_window_size)
                     - (c.audio_buffer.length - 10 * c.vad_window_size)
                else 0
              audio_buffer :=
                c.audio_buffer.drop (c.audio_buffer.length - 10 * c.vad_window_size) },
           10 * c.vad_window_size) := by
      unfold trimStep
      rw [if_pos (by refine ⟨hs, ?_⟩; rw [hlen]; exact hlong)]
      rw [hlen]
    simp only [hvl2]
    rw [htrim]
    simp only [feedStep_no_speech, popStep_no_pop, hs, hpop,
      List.nil_append, List.append_nil]
    refine ⟨by trivial, ?_, ?_, by trivial, by trivial⟩
    · unfold Int16ToFloat
      exact List.map_drop _ _ _
    · rw [List.length_drop]
      omega

/-- Witness for C3: window size W = 1, an 11-sample silent buffer (11 > 10),
VAD offset 0 and decoder-fed offset 3.  The run trims the buffer to its last
10 samples, the window loop advances the offset to 11 and the trim moves it
back to 11 - 1 = 10, and the fed offset 3 is clamped to 3 - 1 = 2. -/
theorem offline_silence_trim_witness :
    (silentConn.is_active = true ∧ silentConn.use_online_recognizer = false ∧
     silentConn.has_vad = true ∧ silentConn.has_offline_recognizer = true ∧
     silentConn.vad_offset ≤ silentConn.audio_buffer.length) ∧
    (silentConn.speech_started = false ∧ quietPipeline.offl.popCount = 0 ∧
     0 < silentConn.vad_window_size ∧
     10 * silentConn.vad_window_size < silentConn.audio_buffer.length) ∧
    ((ProcessAudioBuffer offlineTestCfg quietPipeline silentConn).1.vad_offset
       ≤ ((Int16ToFloat (ProcessAudioBuffer offlineTestCfg quietPipeline
            silentConn).1.audio_buffer)).length) ∧
    (ProcessAudioBuffer offlineTestCfg quietPipeline silentConn).1.audio_buffer
      = silentConn.audio_buffer.drop 1 ∧
    (ProcessAudioBuffer offlineTestCfg quietPipeline silentConn).1.audio_buffer.length
      = 10 ∧
    (ProcessAudioBuffer offlineTestCfg quietPipeline silentConn).1.vad_offset = 10 ∧
    (ProcessAudioBuffer offlineTestCfg quietPipeline silentConn).1.streamed_offset = 2 := by
  have h := offline_silence_trim offlineTestCfg quietPipeline silentConn rfl rfl rfl rfl
    (by decide)
  have h2 := h.2 rfl (fun o => rfl) rfl (by decide) (by decide)
  refine ⟨⟨rfl, rfl, rfl, rfl, by decide⟩, ⟨rfl, rfl, by decide, by decide⟩,
    h.1, ?_, ?_, ?_, ?_⟩
  · have := h2.1
    simpa using this
  · have := h2.2.2.1
    simpa using this
  · have := h2.2.2.2.1
    simpa using this
  · have := h2.2.2.2.2
    simpa using this

/-- C5: a Begin whose payload carries an unsupported sample rate (any rate
other than 16000, for example 8000) makes the server emit Failed 1003 and
leaves the session in Connected with the recognizer flags untouched (only
client_config_ was overwritten by FromJson before validation); an End on a
Connected session (whether after such a failed Begin or before any Begin)
emits Failed 1005 and changes nothing. -/
theorem invalid_rate_then_end (cfg : ServerConfig) (benv : BeginEnv) (penv : PipelineEnv)
    (p : BeginPayload) (c : Conn)
    (hst : c.state = ConnectionState.CONNECTED)
    (hfmt : p.fmt = "pcm") (hrate : p.rate ≠ 16000) :
    HandleStartTranscription cfg benv p c
      = ({ c with client_config := ClientConfig.FromJson p }, [Event.failed 1003]) ∧
    ({ c with client_config := ClientConfig.FromJson p } : Conn).state
      = ConnectionState.CONNECTED ∧
    ({ c with client_config := ClientConfig.FromJson p } : Conn).has_offline_recognizer
      = c.has_offline_recognizer ∧
    ({ c with client_config := ClientConfig.FromJson p } : Conn).has_online_recognizer
      = c.has_online_recognizer ∧
    ({ c with client_config := ClientConfig.FromJson p } : Conn).has_vad = c.has_vad ∧
    HandleStopTranscription cfg penv { c with client_config := ClientConfig.FromJson p }
      = ({ c with client_config := ClientConfig.FromJson p }, [Event.failed 1005]) ∧
    HandleStopTranscription cfg penv c = (c, [Event.failed 1005]) := by
  refine ⟨?_, by simp [hst], rfl, rfl, rfl, ?_, ?_⟩
  · unfold HandleStartTranscription
    rw [if_neg (by simp [hst])]
    have hf : ¬ (ClientConfig.FromJson p).format ≠ "pcm" := by
      simp [ClientConfig.FromJson, hfmt]
    rw [if_neg hf, if_pos (by simpa [ClientConfig.FromJson] using hrate)]
    rfl
  · unfold HandleStopTranscription
    rw [if_pos (by simp [hst])]
    rfl
  · unfold HandleStopTranscription
    rw [if_pos hst]
    rfl

/-- Witness for C5 at rate 8000. -/
theorem invalid_rate_then_end_witness :
    initConn.state = ConnectionState.CONNECTED ∧
    ({ rate := 8000 } : BeginPayload).fmt = "pcm" ∧
    ({ rate := 8000 } : BeginPayload).rate ≠ 16000 ∧
    (HandleStartTranscription offlineTestCfg okBeginEnv { rate := 8000 } initConn
      = ({ initConn with client_config := ClientConfig.FromJson { rate := 8000 } },
         [Event.failed 1003]) ∧
     ({ initConn with client_config := ClientConfig.FromJson { rate := 8000 } } : Conn).state
      = ConnectionState.CONNECTED ∧
     ({ initConn with
         client_config := ClientConfig.FromJson { rate := 8000 } } : Conn).has_offline_recognizer
      = initConn.has_offline_recognizer ∧
     ({ initConn with
         client_config := ClientConfig.FromJson { rate := 8000 } } : Conn).has_online_recognizer
      = initConn.has_online_recognizer ∧
     ({ initConn with client_config := ClientConfig.FromJson { rate := 8000 } } : Conn).has_vad
      = initConn.has_vad ∧
     HandleStopTranscription offlineTestCfg quietPipeline
        { initConn with client_config := ClientConfig.FromJson { rate := 8000 } }
      = ({ initConn with client_config := ClientConfig.FromJson { rate := 8000 } },
         [Event.failed 1005]) ∧
     HandleStopTranscription offlineTestCfg quietPipeline initConn
      = (initConn, [Event.failed 1005])) :=
  ⟨rfl, rfl, by decide,
   invalid_rate_then_end offlineTestCfg okBeginEnv quietPipeline { rate := 8000 } initConn
     rfl rfl (by decide)⟩

/-- C6: for every session (any server configuration, any sequence of text
frames, binary frames, socket closes and timeouts, any oracle answers),
the emitted trace satisfies the sentence-numbering and timing contract
traceOk from the initial checking state: SentenceBegin events carry the
indices 1, 2, 3, ... in order (so they start at 1 and are strictly
increasing), every Result and SentenceEnd carries the index of the most
recent SentenceBegin and is preceded by one, the time fields of
SentenceBegin / Result / SentenceEnd are non-decreasing over the session,
and every SentenceEnd carries begin equal to the time field of the
SentenceBegin with the same index. -/
theorem sentence_numbering_and_times (cfg : ServerConfig) (inputs : List Input) :
    traceOk {} (run cfg initConn inputs).2 :=
  (run_stepOk cfg inputs initConn {} SessionInv_init).1

/-- C7: when a punctuator is configured, punctuation is applied exactly to
the text of SentenceEnd payloads (SendSentenceEnd routes the final text
through AddPunctuation) and never to the text of Result payloads
(SendTranscriptionResultChanged passes the text through); if the punctuator
call throws (modelled as the call returning none) or the input text is
empty, AddPunctuation returns the input unchanged. -/
theorem punctuation_on_final_only (punctuation : Option (String → Option String))
    (f : String → Option String) (index time_ms begin_time : Nat)
    (res out : String)
    (hne : res ≠ "") (hout : f res = some out) :
    (SendResultPayload index time_ms res).text = res ∧
    (SendSentenceEndPayload punctuation index time_ms begin_time res).text
      = AddPunctuation punctuation res ∧
    AddPunctuation (some f) res = out ∧
    (∀ g : String → Option String, ∀ t : String, g t = none →
      AddPunctuation (some g) t = t) ∧
    (AddPunctuation punctuation "" = "") ∧
    (∀ t : String, AddPunctuation none t = t) := by
  refine ⟨rfl, rfl, ?_, ?_, ?_, fun _ => rfl⟩
  · simp [AddPunctuation, hne, hout]
  · intro g t hg
    by_cases ht : t = "" <;> simp [AddPunctuation, ht, hg]
  · cases punctuation <;> simp [AddPunctuation]

/-- Witness for C7 with a punctuator that maps the string a to the string b. -/
theorem punctuation_on_final_only_witness :
    ("a" : String) ≠ "" ∧
    (fun t => if t = "a" then some "b" else none) "a" = some "b" ∧
    ((SendResultPayload 1 5 "a").text = "a" ∧
     (SendSentenceEndPayload (some (fun t => if t = "a" then some "b" else none)) 1 5 0 "a").text
       = AddPunctuation (some (fun t => if t = "a" then some "b" else none)) "a" ∧
     AddPunctuation (some (fun t => if t = "a" then some "b" else none)) "a" = "b" ∧
     (∀ g : String → Option String, ∀ t : String, g t = none →
       AddPunctuation (some g) t = t) ∧
     (AddPunctuation (some (fun t => if t = "a" then some "b" else none)) "" = "") ∧
     (∀ t : String, AddPunctuation none t = t)) :=
  ⟨by decide, by decide,
   punctuation_on_final_only (some (fun t => if t = "a" then some "b" else none))
     (fun t => if t = "a" then some "b" else none) 1 5 0 "a" "b" (by decide) (by decide)⟩

/-! ## Voice-print store lemmas -/

theorem containsKey_mem {α β : Type} [DecidableEq α] {l : List (α × β)} {k : α}
    (h : containsKey l k = true) : k ∈ l.map Prod.fst := by
  unfold containsKey at h
  rw [List.any_eq_true] at h
  obtain ⟨p, hp, he⟩ := h
  rw [List.mem_map]
  exact ⟨p, hp, by simpa using he⟩

theorem genIdAux_shape {β : Type} (mk : Nat → SpkId) (taken : List (SpkId × β)) :
    ∀ (fuel n : Nat), ∃ m : Nat, (genIdAux mk taken fuel n).1 = mk m := by
  intro fuel
  induction fuel with
  | zero => intro n; exact ⟨n, rfl⟩
  | succ f ih =>
    intro n
    unfold genIdAux
    by_cases hc : containsKey taken (mk n) = true
    · rw [if_pos hc]
      exact ih (n + 1)
    · rw [if_neg hc]
      exact ⟨n, rfl⟩

theorem genIdAux_fresh {β : Type} (mk : Nat → SpkId) (taken : List (SpkId × β)) :
    ∀ (fuel n : Nat),
      ((List.range' n fuel).countP fun m => containsKey taken (mk m)) < fuel →
      containsKey taken (genIdAux mk taken fuel n).1 = false := by
  intro fuel
  induction fuel with
  | zero => intro n h; omega
  | succ f ih =>
    intro n h
    unfold genIdAux
    by_cases hc : containsKey taken (mk n) = true
    · rw [if_pos hc]
      apply ih
      rw [List.range'_succ, List.countP_cons] at h
      simp [hc] at h
      omega
    · rw [if_neg hc]
      simpa using hc

theorem countP_taken_le {β : Type} (mk : Nat → SpkId) (hmk : Function.Injective mk)
    (taken : List (SpkId × β)) (n fuel : Nat) :
    ((List.range' n fuel).countP fun m => containsKey taken (mk m)) ≤ taken.length := by
  have hr : (List.range' n fuel).Nodup := List.nodup_range' _ _ _ (by norm_num)
  have hnd : (((List.range' n fuel).filter
      fun m => containsKey taken (mk m)).map mk).Nodup :=
    (hr.filter _).map hmk
  have hsub : (((List.range' n fuel).filter
      fun m => containsKey taken (mk m)).map mk) ⊆ taken.map Prod.fst := by
    intro x hx
    rw [List.mem_map] at hx
    obtain ⟨m, hm, hxe⟩ := hx
    have := List.of_mem_filter hm
    rw [← hxe]
    exact containsKey_mem this
  have hsp := (hnd.subperm hsub).length_le
  rw [List.length_map, List.length_map] at hsp
  rw [List.countP_eq_length_filter]
  exact hsp

theorem genIdAux_fresh_enough {β : Type} (mk : Nat → SpkId)
    (hmk : Function.Injective mk) (taken : List (SpkId × β)) (n : Nat) :
    containsKey taken (genIdAux mk taken (taken.length + 1) n).1 = false :=
  genIdAux_fresh mk taken (taken.length + 1) n
    (Nat.lt_succ_of_le (countP_taken_le mk hmk taken n (taken.length + 1)))

theorem speaker_injective : Function.Injective SpkId.speaker := by
  intro a b hab
  cases hab
  rfl

theorem unknown_injective : Function.Injective SpkId.unknown := by
  intro a b hab
  cases hab
  rfl

theorem mapInsert_fresh {α β : Type} [DecidableEq α] {l : List (α × β)} {k : α} (v : β)
    (h : containsKey l k = false) : mapInsert l k v = l ++ [(k, v)] := by
  unfold mapInsert
  rw [if_neg (by simp [h])]

theorem lookupKey_append_fresh {α β : Type} [DecidableEq α] {l : List (α × β)} {k : α}
    (v : β) (h : containsKey l k = false) : lookupKey (l ++ [(k, v)]) k = some v := by
  induction l with
  | nil => simp [lookupKey]
  | cons p rest ih =>
    unfold containsKey at h
    simp only [List.any_cons, Bool.or_eq_false_iff] at h
    unfold lookupKey
    rw [List.cons_append, List.find?_cons_of_neg _ (by simpa using h.1)]
    exact ih h.2

theorem eraseKey_append_fresh {α β : Type} [DecidableEq α] {l : List (α × β)} {k : α}
    (v : β) (h : containsKey l k = false) : eraseKey (l ++ [(k, v)]) k = l := by
  induction l with
  | nil => simp [eraseKey, List.eraseP]
  | cons p rest ih =>
    unfold containsKey at h
    simp only [List.any_cons, Bool.or_eq_false_iff] at h
    unfold eraseKey at *
    rw [List.cons_append, List.eraseP_cons_of_neg (by simpa using h.1)]
    rw [ih h.2]

theorem diskDelete_of_not_has {d : EmbeddingsDir} {p : SpkId}
    (h : diskHas d p = false) : diskDelete d p = d := by
  unfold diskDelete
  unfold diskHas at h
  induction d with
  | nil => rfl
  | cons x rest ih =>
    simp only [List.any_cons, Bool.or_eq_false_iff] at h
    rw [List.filter_cons_of_pos (by simpa using h.1)]
    rw [ih h.2]

theorem diskHas_delete (d : EmbeddingsDir) (p : SpkId) :
    diskHas (diskDelete d p) p = false := by
  unfold diskHas diskDelete
  induction d with
  | nil => rfl
  | cons x rest ih =>
    by_cases hx : x.1 = p
    · rw [List.filter_cons_of_neg (by simpa using hx)]
      exact ih
    · rw [List.filter_cons_of_pos (by simpa using hx)]
      simp only [List.any_cons, hx, decide_False, Bool.false_or]
      exact ih

theorem diskDelete_write (d : EmbeddingsDir) (p : SpkId) (e : List ℚ)
    (h : diskHas d p = false) : diskDelete (diskWrite d p e) p = d := by
  unfold diskDelete diskWrite
  rw [List.filter_append]
  rw [show List.filter (fun x => decide (x.1 ≠ p)) [(p, e)] = [] by simp]
  rw [List.append_nil]
  have h2 := diskDelete_of_not_has h
  unfold diskDelete at h2
  rw [h2, h2]

theorem add_remove_core (db : VPDatabase) (disk : EmbeddingsDir)
    (meta : VoicePrintMetadata) (embedding : List ℚ) (t0 t1 t : String)
    (hfresh : containsKey db.voice_prints meta.id = false)
    (hfile : diskHas disk meta.embedding_file = false) :
    (RemoveVoicePrint (AddVoicePrint db disk meta embedding t0).1
        (AddVoicePrint db disk meta embedding t0).2 meta.id t1).2.1 = disk ∧
    (RemoveVoicePrint (AddVoicePrint db disk meta embedding t0).1
        (AddVoicePrint db disk meta embedding t0).2 meta.id t1).2.2 = true ∧
    SaveIndex (RemoveVoicePrint (AddVoicePrint db disk meta embedding t0).1
        (AddVoicePrint db disk meta embedding t0).2 meta.id t1).1 t = SaveIndex db t := by
  unfold AddVoicePrint RemoveVoicePrint
  simp only [mapInsert_fresh meta hfresh, lookupKey_append_fresh meta hfresh]
  refine ⟨?_, by trivial, ?_⟩
  · exact diskDelete_write disk meta.embedding_file embedding hfile
  · unfold SaveIndex
    simp only [eraseKey_append_fresh meta hfresh]

/-- C8: for every voice-print store state in which every speaker-N
embedding file on disk belongs to a record in the index (no orphan blobs),
adding a speaker through the enrollment flow (fresh speaker-N id generated
by GenerateSpeakerId, embedding written to embeddings/speaker-N.bin, record
inserted) and then removing that speaker leaves the embeddings directory
exactly as before and makes voice-prints.yaml as written by SaveIndex
identical to the pre-add one modulo the updated_at timestamp (both renders
are compared at the same write time t); in particular, removing any present
record always deletes its embedding .bin file from disk. -/
theorem add_then_remove_restores_store (db : VPDatabase) (disk : EmbeddingsDir)
    (name : String) (embedding : List ℚ) (audio_samples : List String)
    (t0 t1 t : String) (db2 : VPDatabase) (disk2 : EmbeddingsDir) (i : SpkId)
    (t2 : String) (m : VoicePrintMetadata)
    (hwf : ∀ n : Nat, diskHas disk (SpkId.speaker n) = true →
      containsKey db.voice_prints (SpkId.speaker n) = true)
    (hlook : lookupKey db2.voice_prints i = some m) :
    ((RemoveVoicePrint (AddSpeakerRecord db disk name embedding audio_samples t0).2.1
        (AddSpeakerRecord db disk name embedding audio_samples t0).2.2
        (AddSpeakerRecord db disk name embedding audio_samples t0).1 t1).2.1 = disk ∧
     (RemoveVoicePrint (AddSpeakerRecord db disk name embedding audio_samples t0).2.1
        (AddSpeakerRecord db disk name embedding audio_samples t0).2.2
        (AddSpeakerRecord db disk name embedding audio_samples t0).1 t1).2.2 = true ∧
     SaveIndex (RemoveVoicePrint
        (AddSpeakerRecord db disk name embedding audio_samples t0).2.1
        (AddSpeakerRecord db disk name embedding audio_samples t0).2.2
        (AddSpeakerRecord db disk name embedding audio_samples t0).1 t1).1 t
       = SaveIndex db t) ∧
    diskHas (RemoveVoicePrint db2 disk2 i t2).2.1 m.embedding_file = false := by
  constructor
  · have hfresh : containsKey db.voice_prints
        (genIdAux SpkId.speaker db.voice_prints (db.voice_prints.length + 1)
          db.next_speaker_num).1 = false :=
      genIdAux_fresh_enough SpkId.speaker speaker_injective db.voice_prints
        db.next_speaker_num
    obtain ⟨nn, hnn⟩ := genIdAux_shape SpkId.speaker db.voice_prints
      (db.voice_prints.length + 1) db.next_speaker_num
    have hdiskn : diskHas disk
        (genIdAux SpkId.speaker db.voice_prints (db.voice_prints.length + 1)
          db.next_speaker_num).1 = false := by
      rw [hnn]
      cases hh : diskHas disk (SpkId.speaker nn)
      · rfl
      · have := hwf nn hh
        rw [← hnn] at this
        rw [this] at hfresh
        cases hfresh
    unfold AddSpeakerRecord GenerateSpeakerId
    simp only []
    have hcore := add_remove_core
      { db with next_speaker_num :=
          (genIdAux SpkId.speaker db.voice_prints (db.voice_prints.length + 1)
            db.next_speaker_num).2 }
      disk
      { id := (genIdAux SpkId.speaker db.voice_prints (db.voice_prints.length + 1)
            db.next_speaker_num).1,
        name := name, created_at := t0, updated_at := t0,
        embedding_file := (genIdAux SpkId.speaker db.voice_prints
          (db.voice_prints.length + 1) db.next_speaker_num).1,
        embedding_dim := embedding.length,
        num_samples := audio_samples.length, audio_samples := audio_samples }
      embedding t0 t1 t hfresh hdiskn
    exact hcore
  · unfold RemoveVoicePrint
    rw [hlook]
    simp only []
    exact diskHas_delete disk2 m.embedding_file

/-- Witness for C8: the empty store plus a separate one-record store for
the removal conjunct. -/
theorem add_then_remove_restores_store_witness :
    (∀ n : Nat, diskHas ([] : EmbeddingsDir) (SpkId.speaker n) = true →
      containsKey ({} : VPDatabase).voice_prints (SpkId.speaker n) = true) ∧
    lookupKey ({ voice_prints :=
        [(SpkId.speaker 1,
          { id := SpkId.speaker 1, embedding_file := SpkId.speaker 1 })] } :
        VPDatabase).voice_prints (SpkId.speaker 1)
      = some { id := SpkId.speaker 1, embedding_file := SpkId.speaker 1 } ∧
    ((RemoveVoicePrint
        (AddSpeakerRecord {} [] "a" [1] [] "T0").2.1
        (AddSpeakerRecord {} [] "a" [1] [] "T0").2.2
        (AddSpeakerRecord {} [] "a" [1] [] "T0").1 "T1").2.1 = [] ∧
     (RemoveVoicePrint
        (AddSpeakerRecord {} [] "a" [1] [] "T0").2.1
        (AddSpeakerRecord {} [] "a" [1] [] "T0").2.2
        (AddSpeakerRecord {} [] "a" [1] [] "T0").1 "T1").2.2 = true ∧
     SaveIndex (RemoveVoicePrint
        (AddSpeakerRecord {} [] "a" [1] [] "T0").2.1
        (AddSpeakerRecord {} [] "a" [1] [] "T0").2.2
        (AddSpeakerRecord {} [] "a" [1] [] "T0").1 "T1").1 "T"
       = SaveIndex {} "T") ∧
    diskHas (RemoveVoicePrint
        { voice_prints :=
           [(SpkId.speaker 1,
             { id := SpkId.speaker 1, embedding_file := SpkId.speaker 1 })] }
        [(SpkId.speaker 1, [1])] (SpkId.speaker 1) "T2").2.1 (SpkId.speaker 1) = false :=
  by
  have hmain := add_then_remove_restores_store {} [] "a" [1] [] "T0" "T1" "T"
      { voice_prints :=
          [(SpkId.speaker 1,
            { id := SpkId.speaker 1, embedding_file := SpkId.speaker 1 })] }
      [(SpkId.speaker 1, [1])] (SpkId.speaker 1) "T2"
      { id := SpkId.speaker 1, embedding_file := SpkId.speaker 1 }
      (fun n h => nomatch h) rfl
  refine ⟨?_, ?_, ?_, ?_⟩
  · exact fun n h => nomatch h
  · rfl
  · exact hmain.1
  · exact hmain.2

/-- C9: for every embedding handed to ProcessSegment on an initialized
identifier: if the manager search reports an enrolled name, the id and name
of the (first) database record carrying that name are returned, with the
configured threshold as confidence; if the search reports nothing and
auto-tracking is enabled, a fresh unknown-N id (not present among the
stored unknown speakers) is allocated, its embedding is persisted under
embeddings/unknown-N.bin, and the result is flagged as a new speaker named
Unknown Speaker; if auto-tracking is disabled the result is the empty id
and nothing is written.  The default configuration has threshold 3/4
(0.75) and auto-tracking enabled. -/
theorem identify_speaker_flow (si : SpeakerIdentifier) (disk : EmbeddingsDir)
    (env : SegmentEnv) (now : String) (embedding : List ℚ)
    (hinit : si.initialized = true) (hemb : env.extracted = some embedding) :
    (∀ (nm : String) (rec : SpkId × VoicePrintMetadata),
      env.searchResult = some nm →
      si.database.voice_prints.find? (fun p => p.2.name = nm) = some rec →
      ProcessSegment si disk env now
        = ({ speaker_id := some rec.1, speaker_name := nm,
             confidence := si.config.similarity_threshold, is_new_speaker := false },
           si, disk)) ∧
    (env.searchResult = none → si.config.enable_auto_track = true →
      ∃ n : Nat,
        (ProcessSegment si disk env now).1.speaker_id = some (SpkId.unknown n) ∧
        containsKey si.database.unknown_speakers (SpkId.unknown n) = false ∧
        (SpkId.unknown n, embedding) ∈ (ProcessSegment si disk env now).2.2 ∧
        (ProcessSegment si disk env now).1.is_new_speaker = true ∧
        (ProcessSegment si disk env now).1.speaker_name = "Unknown Speaker") ∧
    (env.searchResult = none → si.config.enable_auto_track = false →
      ProcessSegment si disk env now = ({}, si, disk)) ∧
    (({} : SIConfig).similarity_threshold = 3 / 4 ∧
     ({} : SIConfig).enable_auto_track = true) := by
  refine ⟨?_, ?_, ?_, rfl, rfl⟩
  · intro nm rec hsr hfind
    unfold ProcessSegment
    rw [if_neg (by simp [hinit]), hemb]
    simp only []
    unfold MatchSpeaker
    rw [hsr]
    simp only [hfind]
    rw [if_neg (by simp)]
    rfl
  · intro hsr hauto
    unfold ProcessSegment
    rw [if_neg (by simp [hinit]), hemb]
    simp only []
    unfold MatchSpeaker
    rw [hsr]
    rw [if_pos (by exact ⟨rfl, hauto⟩)]
    unfold CreateUnknownSpeaker
    rw [if_neg (by simp [hauto])]
    unfold AddUnknownSpeaker GenerateUnknownSpeakerId
    simp only []
    obtain ⟨nn, hnn⟩ := genIdAux_shape SpkId.unknown si.database.unknown_speakers
      (si.database.unknown_speakers.length + 1) si.database.next_unknown_num
    have hfresh : containsKey si.database.unknown_speakers
        (genIdAux SpkId.unknown si.database.unknown_speakers
          (si.database.unknown_speakers.length + 1) si.database.next_unknown_num).1
        = false :=
      genIdAux_fresh_enough SpkId.unknown unknown_injective si.database.unknown_speakers
        si.database.next_unknown_num
    refine ⟨nn, by rw [← hnn], by rw [← hnn]; exact hfresh, ?_, by trivial, by trivial⟩
    rw [← hnn]
    unfold diskWrite
    exact List.mem_append_right _ (List.mem_singleton.mpr rfl)
  · intro hsr hauto
    unfold ProcessSegment
    rw [if_neg (by simp [hinit]), hemb]
    simp only []
    unfold MatchSpeaker
    rw [hsr]
    rw [if_neg (by simp [hauto])]

/-- Witness for C9: a store enrolling the single speaker alice as
speaker-1, with the manager search reporting alice. -/
theorem identify_speaker_flow_witness :
    aliceIdentifier.initialized = true ∧
    aliceEnv.extracted = some [1] ∧
    ProcessSegment aliceIdentifier [] aliceEnv "T"
      = ({ speaker_id := some (SpkId.speaker 1), speaker_name := "alice",
           confidence := aliceIdentifier.config.similarity_threshold,
           is_new_speaker := false },
         aliceIdentifier, []) :=
  ⟨rfl, rfl,
   (identify_speaker_flow aliceIdentifier [] aliceEnv "T" [1] rfl rfl).1
     "alice"
     (SpkId.speaker 1,
       { id := SpkId.speaker 1, name := "alice", embedding_file := SpkId.speaker 1 })
     rfl (by decide)⟩

/-- C10: if the Begin payload carries a non-empty session_id string, a
successful HandleStartTranscription adopts it verbatim as the session id and
reports it in Started; a fresh UUID (the generate_uuid result in the Begin
environment) is used only when the field is absent or empty. -/
theorem client_session_id_adopted (cfg : ServerConfig) (env : BeginEnv)
    (p : BeginPayload) (c : Conn)
    (hst : c.state = ConnectionState.CONNECTED)
    (hfmt : p.fmt = "pcm") (hrate : p.rate = (16000 : Int))
    (hsrv : cfg.hasServer = true) (hinit : env.initFails = false) :
    (∀ s : String, p.session_id = some s → s ≠ "" →
      (HandleStartTranscription cfg env p c).1.session_id = s ∧
      (HandleStartTranscription cfg env p c).2 = [Event.started s]) ∧
    ((p.session_id = none ∨ p.session_id = some "") →
      (HandleStartTranscription cfg env p c).1.session_id = env.uuid ∧
      (HandleStartTranscription cfg env p c).2 = [Event.started env.uuid]) := by
  unfold HandleStartTranscription
  rw [if_neg (by simp [hst]),
      if_neg (by simp [ClientConfig.FromJson, hfmt]),
      if_neg (by simp [ClientConfig.FromJson, hrate]),
      if_neg (by simp [hsrv]),
      if_neg (by simp [hinit])]
  constructor
  · intro s hs hne
    rw [hs]
    simp [Option.getD, hne]
  · intro hs
    rcases hs with hs | hs <;> rw [hs] <;> simp

/-- Witness for C10: a client-supplied session id s is echoed in Started. -/
theorem client_session_id_adopted_witness :
    initConn.state = ConnectionState.CONNECTED ∧
    ({ session_id := some "s" } : BeginPayload).fmt = "pcm" ∧
    ({ session_id := some "s" } : BeginPayload).rate = (16000 : Int) ∧
    offlineTestCfg.hasServer = true ∧
    okBeginEnv.initFails = false ∧
    ({ session_id := some "s" } : BeginPayload).session_id = some "s" ∧
    ("s" : String) ≠ "" ∧
    (HandleStartTranscription offlineTestCfg okBeginEnv { session_id := some "s" }
        initConn).1.session_id = "s" ∧
    (HandleStartTranscription offlineTestCfg okBeginEnv { session_id := some "s" }
        initConn).2 = [Event.started "s"] :=
  ⟨rfl, rfl, rfl, rfl, rfl, rfl, by decide,
   (client_session_id_adopted offlineTestCfg okBeginEnv { session_id := some "s" }
      initConn rfl rfl rfl rfl rfl).1 "s" rfl (by decide)⟩

end ZAsr
